import Mathlib

/-
  Verification of the dictionary converter of the slyr repository
  (src/slyr/converters/dictionary.py).

  The converter takes an in-memory symbology object tree (fill, line and
  marker symbols built from stacked symbol layers, outlines, decorations,
  dash templates, fonts, color ramps and embedded pictures) and projects it
  onto a generic nested structure of string-keyed ordered maps, sequences
  and scalars.  Python dictionaries preserve insertion order, so maps are
  embedded as ordered association lists.  Fallible conversion steps are
  embedded in the Except monad: NotImplementedException (called
  UnsupportedVariant in the design document) and AttributeError (a null
  dereference such as reading .model of an absent color) are the two
  failure kinds.
-/

namespace Slyr

/-- A generic output value: string, number, boolean, null, ordered sequence,
or nested string-keyed mapping, as produced by the converter. -/
inductive Value where
  | null : Value
  | boolV : Bool → Value
  | intV : Int → Value
  | strV : String → Value
  | listV : List Value → Value
  | dictV : List (String × Value) → Value

/-- An ordered dictionary, embedding a Python dict (insertion ordered). -/
abbrev Dict := List (String × Value)

/-- Key lookup in an ordered dictionary. -/
def Dict.get : Dict → String → Option Value
  | [], _ => none
  | (k1, v1) :: rest, k => if k1 == k then some v1 else Dict.get rest k

/-- Key membership in an ordered dictionary. -/
def Dict.hasKey : Dict → String → Bool
  | [], _ => false
  | (k1, _) :: rest, k => if k1 == k then true else Dict.hasKey rest k

/-- Assignment d[k] = v of a Python dict: replaces the value in place when
the key is present (keeping its position), appends the pair otherwise. -/
def Dict.set : Dict → String → Value → Dict
  | [], k, v => [(k, v)]
  | (k1, v1) :: rest, k, v =>
    if k1 == k then (k, v) :: rest else (k1, v1) :: Dict.set rest k v

/-- The key sequence of an ordered dictionary. -/
def Dict.keys (d : Dict) : List String := List.map Prod.fst d

/-- The single failure kind of the conversion (UnsupportedVariant in the
design document, NotImplementedException in the code), plus the
AttributeError a null dereference raises. -/
inductive ConvErr where
  | unsupportedVariant : String → ConvErr
  | attributeError : String → ConvErr
deriving DecidableEq

/-- Explicit bind for Except used throughout the converters: an error
aborts the whole conversion (fail-fast propagation). -/
def eBind {α β : Type} (x : Except ConvErr α) (f : α → Except ConvErr β) :
    Except ConvErr β :=
  match x with
  | Except.error e => Except.error e
  | Except.ok a => f a

@[simp]
theorem eBind_ok {α β : Type} (a : α) (f : α → Except ConvErr β) :
    eBind (Except.ok a) f = f a := rfl

@[simp]
theorem eBind_error {α β : Type} (e : ConvErr) (f : α → Except ConvErr β) :
    eBind (Except.error e) f = Except.error e := rfl

/-- Modelled from the spec (sections 1 and 3): a Color value object carries a
model discriminator and exposes its own canonical-dict representation; its
internal byte-level encoding is out of scope, so the canonical form is held
as an abstract generic value. -/
structure Color where
  model : String
  canonical : Value

/-- Modelled from the spec (section 4.6): the core only delegates to the
canonical-dict accessor of the color. -/
def Color.to_dict (c : Color) : Value := c.canonical

/-- DictionaryConverter.convert_color: the canonical dict of the color, or
null when the color reference is absent. -/
def convert_color : Option Color → Value
  | none => Value.null
  | some c => Color.to_dict c

/-- An unguarded read of color.model, as in `layer.color.model`: raises
AttributeError when the color reference is absent. -/
def read_model : Option Color → Except ConvErr Value
  | none => Except.error (ConvErr.attributeError ("NoneType has no attribute model"))
  | some c => Except.ok (Value.strV c.model)

/-- A guarded read of color.model, as in
`layer.color.model if layer.color else None`. -/
def read_model_guarded : Option Color → Value
  | none => Value.null
  | some c => Value.strV c.model

/-- An unguarded call of color.to_dict, as in `layer.outline_color.to_dict()`:
raises AttributeError when the color reference is absent. -/
def read_to_dict : Option Color → Except ConvErr Value
  | none => Except.error (ConvErr.attributeError ("NoneType has no attribute to_dict"))
  | some c => Except.ok (Color.to_dict c)

/-- Modelled from the spec (section 3): a Font carries family name, character
set, weight, point size and the three style flags. -/
structure Font where
  font_name : String
  charset : Int
  weight : Int
  size : Int
  italic : Bool
  strikethrough : Bool
  underline : Bool
deriving DecidableEq

/-- DictionaryConverter.convert_font. -/
def convert_font (f : Font) : Dict :=
  [("font_name", Value.strV f.font_name),
   ("charset", Value.intV f.charset),
   ("weight", Value.intV f.weight),
   ("size", Value.intV f.size),
   ("italic", Value.boolV f.italic),
   ("strikethrough", Value.boolV f.strikethrough),
   ("underline", Value.boolV f.underline)]

/-- Modelled from the spec (section 3): a ColorRamp produces its own
canonical-dict representation directly and is not decomposed further. -/
structure ColorRamp where
  canonical : Value

/-- The canonical-dict accessor of a color ramp. -/
def ColorRamp.to_dict (r : ColorRamp) : Value := r.canonical

/-- Modelled from the spec (section 3): a LineTemplate is a dash pattern with
a numeric interval and an ordered sequence of segment lengths. -/
structure LineTemplate where
  pattern_interval : Int
  pattern_parts : List Int
deriving DecidableEq

/-- DictionaryConverter.convert_template. -/
def convert_template (t : LineTemplate) : Dict :=
  [("pattern_interval", Value.intV t.pattern_interval),
   ("pattern_parts", Value.listV (List.map Value.intV t.pattern_parts))]

/-- Modelled from the spec (section 3): the concrete picture payloads.  The
BMP-like and EMF-like variants are the supported ones; any other concrete
picture kind is unsupported and must fail, so the closed model carries an
extra variant standing for every other kind. -/
inductive ConcretePicture where
  | bmp : List Nat → ConcretePicture
  | emf : List Nat → ConcretePicture
  | unknown : String → ConcretePicture
deriving DecidableEq

/-- Modelled from the spec (section 3): a picture may be wrapped in a generic
standard-picture holder, which is unwrapped before inspecting the concrete
variant. -/
inductive Picture where
  | std : ConcretePicture → Picture
  | plain : ConcretePicture → Picture
deriving DecidableEq

/-- The unwrap step `picture = picture.picture` applied to StdPicture
holders in DictionaryConverter.convert_picture. -/
def unwrapStd : Picture → ConcretePicture
  | Picture.std c => c
  | Picture.plain c => c

/-- The Python class name of a concrete picture payload. -/
def pictureTypeName : ConcretePicture → String
  | ConcretePicture.bmp _ => "BmpPicture"
  | ConcretePicture.emf _ => "EmfPicture"
  | ConcretePicture.unknown n => n

namespace PictureUtils

/-- Modelled from the spec (section 4.6): stands for the base64 encoding of
re-rasterized PNG bytes (PictureUtils.to_base64_png is not part of the core;
the encoding itself is out of scope). -/
def to_base64_png (content : List Nat) : String :=
  ("png-base64:") ++ toString content

/-- Modelled from the spec (section 4.6): stands for the base64 encoding of
opaque bytes (PictureUtils.to_base64 is not part of the core). -/
def to_base64 (content : List Nat) : String :=
  ("base64:") ++ toString content

end PictureUtils

/-- DictionaryConverter.convert_picture: null in, null out; unwrap a
standard-picture holder; emit the concrete class name and the encoded
content; any other picture kind raises the unsupported-variant error. -/
def convert_picture : Option Picture → Except ConvErr Value
  | none => Except.ok Value.null
  | some p =>
    match unwrapStd p with
    | ConcretePicture.bmp content =>
      Except.ok (Value.dictV
        [("type", Value.strV ("BmpPicture")),
         ("content", Value.strV (PictureUtils.to_base64_png content))])
    | ConcretePicture.emf content =>
      Except.ok (Value.dictV
        [("type", Value.strV ("EmfPicture")),
         ("content", Value.strV (PictureUtils.to_base64 content))])
    | ConcretePicture.unknown n =>
      Except.error (ConvErr.unsupportedVariant (n ++ (" picture conversion not implemented")))

namespace GradientFillSymbolLayer

/-- Modelled from the spec (section 4.3): the closed enumeration of
gradient-type codes; the four members are distinct numeric codes declared on
the GradientFillSymbolLayer class, which is not part of the core source. -/
def LINEAR : Int := 0

/-- Modelled from the spec (section 4.3): see LINEAR. -/
def CIRCULAR : Int := 1

/-- Modelled from the spec (section 4.3): see LINEAR. -/
def BUFFERED : Int := 2

/-- Modelled from the spec (section 4.3): see LINEAR. -/
def RECTANGULAR : Int := 3

end GradientFillSymbolLayer

/-- DictionaryConverter.convert_gradient_type: maps the closed enumeration of
numeric gradient-type codes to the string discriminator; any other code
raises the unsupported-variant error. -/
def convert_gradient_type (gradient_type : Int) : Except ConvErr String :=
  if gradient_type = GradientFillSymbolLayer.LINEAR then Except.ok ("linear")
  else if gradient_type = GradientFillSymbolLayer.CIRCULAR then Except.ok ("circular")
  else if gradient_type = GradientFillSymbolLayer.BUFFERED then Except.ok ("buffered")
  else if gradient_type = GradientFillSymbolLayer.RECTANGULAR then Except.ok ("rectangular")
  else Except.error (ConvErr.unsupportedVariant
    (("Gradient type ") ++ toString gradient_type ++ (" not implemented yet")))

/-- The three universal attributes every symbol layer carries:
enabled, locked and the (possibly empty) tag list. -/
structure LayerBase where
  enabled : Bool
  locked : Bool
  tags : List String

mutual

/-- A top-level symbol: FillSymbol, LineSymbol or MarkerSymbol
(slyr.parser.symbol_parser). -/
inductive Symbol where
  | fill : FillSymbol → Symbol
  | line : LineSymbol → Symbol
  | marker : MarkerSymbol → Symbol

/-- A fill symbol: an ordered sequence of symbol layers (levels). -/
inductive FillSymbol where
  | mk : List SymbolLayer → FillSymbol

/-- A line symbol: an ordered sequence of symbol layers (levels). -/
inductive LineSymbol where
  | mk : List SymbolLayer → LineSymbol

/-- A marker symbol: ordered levels plus the halo flag, the halo size and an
optional halo symbol. -/
inductive MarkerSymbol where
  | mk : (levels : List SymbolLayer) → (halo : Bool) → (halo_size : Int) →
         (halo_symbol : Option Symbol) → MarkerSymbol

/-- A value that is either a full symbol or a bare symbol layer: the
bare-layer-or-full-symbol polymorphism of several fields and of the
top-level conversion entry point. -/
inductive SymbolOrLayer where
  | sym : Symbol → SymbolOrLayer
  | layer : SymbolLayer → SymbolOrLayer

/-- A symbol layer: the three universal attributes plus a concrete variant
belonging to exactly one of the three capability families. -/
inductive SymbolLayer where
  | fillLayer : LayerBase → FillLayerVariant → SymbolLayer
  | lineLayer : LayerBase → LineLayerVariant → SymbolLayer
  | markerLayer : LayerBase → MarkerLayerVariant → SymbolLayer

/-- The concrete fill-layer variants
(slyr.parser.objects.fill_symbol_layer). -/
inductive FillLayerVariant where
  | simple : (color : Option Color) → (outline_layer : Option SymbolLayer) →
             (outline_symbol : Option Symbol) → FillLayerVariant
  | colorSym : (color : Option Color) → FillLayerVariant
  | gradient : (outline_layer : Option SymbolLayer) →
               (outline_symbol : Option Symbol) → (ramp : ColorRamp) →
               (percent : Int) → (angle : Int) → (intervals : Int) →
               (gtype : Int) → FillLayerVariant
  | lineFill : (outline_layer : Option SymbolLayer) →
               (outline_symbol : Option Symbol) → (line : SymbolOrLayer) →
               (angle : Int) → (offset : Int) → (separation : Int) →
               FillLayerVariant
  | markerFill : (outline_layer : Option SymbolLayer) →
                 (outline_symbol : Option Symbol) → (marker : SymbolOrLayer) →
                 (offset_x : Int) → (offset_y : Int) → (separation_x : Int) →
                 (separation_y : Int) → (random : Bool) → FillLayerVariant
  | pictureFill : (color_foreground : Option Color) →
                  (color_background : Option Color) →
                  (color_transparent : Option Color) → (swap_fb_gb : Bool) →
                  (outline_layer : Option SymbolLayer) →
                  (outline_symbol : Option Symbol) →
                  (picture : Option Picture) → (angle : Int) →
                  (scale_x : Int) → (scale_y : Int) → (offset_x : Int) →
                  (offset_y : Int) → (separation_x : Int) →
                  (separation_y : Int) → FillLayerVariant

/-- The concrete line-layer variants
(slyr.parser.objects.line_symbol_layer). -/
inductive LineLayerVariant where
  | simpleLine : (color : Option Color) → (width : Int) →
                 (line_type : String) → LineLayerVariant
  | cartographic : (color : Option Color) → (width : Int) → (offset : Int) →
                   (cap : String) → (join : String) →
                   (template : Option LineTemplate) →
                   (decoration : Option DecorationElem) → LineLayerVariant
  | markerLine : (color : Option Color) → (offset : Int) → (cap : String) →
                 (join : String) → (template : Option LineTemplate) →
                 (pattern_marker : Option SymbolOrLayer) →
                 (decoration : Option DecorationElem) → LineLayerVariant
  | hash : (color : Option Color) → (width : Int) → (offset : Int) →
           (cap : String) → (join : String) →
           (template : Option LineTemplate) →
           (line : Option SymbolOrLayer) →
           (decoration : Option DecorationElem) → LineLayerVariant

/-- The concrete marker-layer variants
(slyr.parser.objects.marker_symbol_layer). -/
inductive MarkerLayerVariant where
  | simpleMarker : (color : Option Color) → (marker_type : String) →
                   (size : Int) → (x_offset : Int) → (y_offset : Int) →
                   (outline_enabled : Bool) → (outline_color : Option Color) →
                   (outline_width : Int) → MarkerLayerVariant
  | character : (color : Option Color) → (unicode : Int) → (font : String) →
                (std_font : Option Font) → (size : Int) → (angle : Int) →
                (x_offset : Int) → (y_offset : Int) → MarkerLayerVariant
  | arrow : (color : Option Color) → (size : Int) → (width : Int) →
            (angle : Int) → (x_offset : Int) → (y_offset : Int) →
            MarkerLayerVariant
  | pictureMarker : (color_foreground : Option Color) →
                    (color_background : Option Color) →
                    (color_transparent : Option Color) → (size : Int) →
                    (angle : Int) → (x_offset : Int) → (y_offset : Int) →
                    (swap_fb_gb : Bool) → (picture : Option Picture) →
                    MarkerLayerVariant

/-- An element of a line decoration sequence: either a nested LineDecoration
or a SimpleLineDecoration (slyr.parser.objects.decoration). -/
inductive DecorationElem where
  | nested : LineDecoration → DecorationElem
  | simpleDec : SimpleLineDecoration → DecorationElem

/-- A line decoration: an ordered sequence of decoration elements. -/
inductive LineDecoration where
  | mk : List DecorationElem → LineDecoration

/-- A simple line decoration: flags, marker positions and an optional marker
payload polymorphic over bare layer and full symbol. -/
inductive SimpleLineDecoration where
  | mk : (fixed_angle : Bool) → (flip_first : Bool) → (flip_all : Bool) →
         (marker_positions : List Int) →
         (marker : Option SymbolOrLayer) → SimpleLineDecoration

end

/-- The universal attributes of a layer, common to the three families. -/
def SymbolLayer.base : SymbolLayer → LayerBase
  | SymbolLayer.fillLayer b _ => b
  | SymbolLayer.lineLayer b _ => b
  | SymbolLayer.markerLayer b _ => b

/-- The Python class name of the concrete layer variant
(type(layer).__name__). -/
def layerTypeName : SymbolLayer → String
  | SymbolLayer.fillLayer _ (FillLayerVariant.simple ..) => "SimpleFillSymbolLayer"
  | SymbolLayer.fillLayer _ (FillLayerVariant.colorSym ..) => "ColorSymbol"
  | SymbolLayer.fillLayer _ (FillLayerVariant.gradient ..) => "GradientFillSymbolLayer"
  | SymbolLayer.fillLayer _ (FillLayerVariant.lineFill ..) => "LineFillSymbolLayer"
  | SymbolLayer.fillLayer _ (FillLayerVariant.markerFill ..) => "MarkerFillSymbolLayer"
  | SymbolLayer.fillLayer _ (FillLayerVariant.pictureFill ..) => "PictureFillSymbolLayer"
  | SymbolLayer.lineLayer _ (LineLayerVariant.simpleLine ..) => "SimpleLineSymbolLayer"
  | SymbolLayer.lineLayer _ (LineLayerVariant.cartographic ..) => "CartographicLineSymbolLayer"
  | SymbolLayer.lineLayer _ (LineLayerVariant.markerLine ..) => "MarkerLineSymbolLayer"
  | SymbolLayer.lineLayer _ (LineLayerVariant.hash ..) => "HashLineSymbolLayer"
  | SymbolLayer.markerLayer _ (MarkerLayerVariant.simpleMarker ..) => "SimpleMarkerSymbolLayer"
  | SymbolLayer.markerLayer _ (MarkerLayerVariant.character ..) => "CharacterMarkerSymbolLayer"
  | SymbolLayer.markerLayer _ (MarkerLayerVariant.arrow ..) => "ArrowMarkerSymbolLayer"
  | SymbolLayer.markerLayer _ (MarkerLayerVariant.pictureMarker ..) => "PictureMarkerSymbolLayer"

/-- type(symbol.halo_symbol).__name__: the class name of the halo symbol, or
the NoneType sentinel when no halo symbol is present. -/
def haloTypeName : Option Symbol → String
  | none => "NoneType"
  | some (Symbol.fill _) => "FillSymbol"
  | some (Symbol.line _) => "LineSymbol"
  | some (Symbol.marker _) => "MarkerSymbol"

/-- DictionaryConverter.convert_simple_marker_symbol_layer: both the color
and the outline color are dereferenced unguarded. -/
def convert_simple_marker_symbol_layer (color : Option Color)
    (marker_type : String) (size x_offset y_offset : Int)
    (outline_enabled : Bool) (outline_color : Option Color)
    (outline_width : Int) : Except ConvErr Dict :=
  eBind (read_model color) (fun m =>
  eBind (read_model outline_color) (fun om =>
  eBind (read_to_dict outline_color) (fun od =>
  Except.ok
    [("color", convert_color color),
     ("color_model", m),
     ("marker_type", Value.strV marker_type),
     ("size", Value.intV size),
     ("x_offset", Value.intV x_offset),
     ("y_offset", Value.intV y_offset),
     ("outline_enabled", Value.boolV outline_enabled),
     ("outline_color_model", om),
     ("outline_color", od),
     ("outline_size", Value.intV outline_width)])))

/-- DictionaryConverter.convert_character_marker_symbol_layer: std_font is
null in the literal and replaced by the font conversion when present. -/
def convert_character_marker_symbol_layer (color : Option Color)
    (unicode : Int) (font : String) (std_font : Option Font)
    (size angle x_offset y_offset : Int) : Except ConvErr Dict :=
  eBind (read_model color) (fun m =>
  Except.ok (
    let base : Dict :=
      [("color", convert_color color),
       ("color_model", m),
       ("unicode", Value.intV unicode),
       ("font", Value.strV font),
       ("std_font", Value.null),
       ("size", Value.intV size),
       ("angle", Value.intV angle),
       ("x_offset", Value.intV x_offset),
       ("y_offset", Value.intV y_offset)]
    match std_font with
    | some f => Dict.set base ("std_font") (Value.dictV (convert_font f))
    | none => base))

/-- DictionaryConverter.convert_arrow_marker_symbol_layer. -/
def convert_arrow_marker_symbol_layer (color : Option Color)
    (size width angle x_offset y_offset : Int) : Except ConvErr Dict :=
  eBind (read_model color) (fun m =>
  Except.ok
    [("color", convert_color color),
     ("color_model", m),
     ("size", Value.intV size),
     ("width", Value.intV width),
     ("angle", Value.intV angle),
     ("x_offset", Value.intV x_offset),
     ("y_offset", Value.intV y_offset)])

/-- DictionaryConverter.convert_picture_marker_symbol_layer: foreground and
background models are read unguarded, the transparent model is guarded. -/
def convert_picture_marker_symbol_layer (color_foreground color_background
    color_transparent : Option Color) (size angle x_offset y_offset : Int)
    (swap_fb_gb : Bool) (picture : Option Picture) : Except ConvErr Dict :=
  eBind (read_model color_foreground) (fun fgm =>
  eBind (read_model color_background) (fun bgm =>
  eBind (convert_picture picture) (fun pv =>
  Except.ok
    [("color_foreground", convert_color color_foreground),
     ("color_foreground_model", fgm),
     ("color_background", convert_color color_background),
     ("color_background_model", bgm),
     ("color_transparent", convert_color color_transparent),
     ("color_transparent_model", read_model_guarded color_transparent),
     ("size", Value.intV size),
     ("angle", Value.intV angle),
     ("x_offset", Value.intV x_offset),
     ("y_offset", Value.intV y_offset),
     ("swap_fg_bg", Value.boolV swap_fb_gb),
     ("picture", pv)])))

/-- DictionaryConverter.convert_marker_symbol_layer: dispatch over the four
concrete marker-layer variants. -/
def convert_marker_symbol_layer : MarkerLayerVariant → Except ConvErr Dict
  | MarkerLayerVariant.simpleMarker color marker_type size x_offset y_offset
      outline_enabled outline_color outline_width =>
    convert_simple_marker_symbol_layer color marker_type size x_offset
      y_offset outline_enabled outline_color outline_width
  | MarkerLayerVariant.character color unicode font std_font size angle
      x_offset y_offset =>
    convert_character_marker_symbol_layer color unicode font std_font size
      angle x_offset y_offset
  | MarkerLayerVariant.arrow color size width angle x_offset y_offset =>
    convert_arrow_marker_symbol_layer color size width angle x_offset y_offset
  | MarkerLayerVariant.pictureMarker fg bg tr size angle x_offset y_offset
      swap pic =>
    convert_picture_marker_symbol_layer fg bg tr size angle x_offset y_offset
      swap pic

/-- DictionaryConverter.convert_simple_line_symbol_layer. -/
def convert_simple_line_symbol_layer (color : Option Color) (width : Int)
    (line_type : String) : Except ConvErr Dict :=
  eBind (read_model color) (fun m =>
  Except.ok
    [("color", convert_color color),
     ("color_model", m),
     ("width", Value.intV width),
     ("line_type", Value.strV line_type)])

/-- DictionaryConverter.convert_color_symbol. -/
def convert_color_symbol (color : Option Color) : Except ConvErr Dict :=
  eBind (read_model color) (fun m =>
  Except.ok
    [("color", convert_color color),
     ("color_model", m)])

/-- The top-level map of a fill symbol: type plus the ordered levels. -/
def fillSymbolDict (ds : List Value) : Value :=
  Value.dictV [("type", Value.strV ("FillSymbol")), ("levels", Value.listV ds)]

/-- The top-level map of a line symbol: type plus the ordered levels. -/
def lineSymbolDict (ds : List Value) : Value :=
  Value.dictV [("type", Value.strV ("LineSymbol")), ("levels", Value.listV ds)]

/-- The top-level map of a marker symbol: type, ordered levels, the halo
fields, and the halo_symbol key exactly when the halo conversion produced a
value. -/
def markerSymbolDict (ds : List Value) (halo : Bool) (halo_size : Int)
    (halo_symbol : Option Symbol) (haloV : Option Value) : Value :=
  Value.dictV
    ([("type", Value.strV ("MarkerSymbol")),
      ("levels", Value.listV ds),
      ("halo", Value.boolV halo),
      ("halo_size", Value.intV halo_size),
      ("halo_symbol_type", Value.strV (haloTypeName halo_symbol))] ++
     (match haloV with
      | some v => [("halo_symbol", v)]
      | none => []))

set_option maxHeartbeats 1600000 in
mutual

/-- The top-level conversion entry point.  The family dispatch over
Symbol-or-bare-layer input is modelled from the spec (section 4.1, the
Converter base class is not part of the core source); the per-family
assembly embeds DictionaryConverter.convert_fill_symbol,
convert_line_symbol and convert_marker_symbol, which read symbol.halo and
the other marker fields before checking for the bare-layer case, so a bare
marker layer raises AttributeError. -/
def convert_symbol : SymbolOrLayer → Except ConvErr Value
  | SymbolOrLayer.sym (Symbol.fill (FillSymbol.mk ls)) =>
    eBind (convert_levels ls) (fun ds => Except.ok (fillSymbolDict ds))
  | SymbolOrLayer.sym (Symbol.line (LineSymbol.mk ls)) =>
    eBind (convert_levels ls) (fun ds => Except.ok (lineSymbolDict ds))
  | SymbolOrLayer.sym (Symbol.marker (MarkerSymbol.mk ls halo halo_size halo_symbol)) =>
    eBind (convert_halo halo_symbol) (fun hv =>
    eBind (convert_levels ls) (fun ds =>
    Except.ok (markerSymbolDict ds halo halo_size halo_symbol hv)))
  | SymbolOrLayer.layer (SymbolLayer.fillLayer b v) =>
    eBind (convert_symbol_layer (SymbolLayer.fillLayer b v))
      (fun d => Except.ok (fillSymbolDict [Value.dictV d]))
  | SymbolOrLayer.layer (SymbolLayer.lineLayer b v) =>
    eBind (convert_symbol_layer (SymbolLayer.lineLayer b v))
      (fun d => Except.ok (lineSymbolDict [Value.dictV d]))
  | SymbolOrLayer.layer (SymbolLayer.markerLayer _ _) =>
    Except.error (ConvErr.attributeError ("SymbolLayer has no attribute halo"))
termination_by x =>
  ((match x with
    | SymbolOrLayer.sym s => sizeOf s
    | SymbolOrLayer.layer l => 1 + sizeOf l), 0)

/-- The halo conversion step of DictionaryConverter.convert_marker_symbol:
an attached FillSymbol halo is converted through a fresh dispatcher; any
other halo value produces no halo_symbol entry. -/
def convert_halo : Option Symbol → Except ConvErr (Option Value)
  | some (Symbol.fill fs) =>
    eBind (convert_symbol (SymbolOrLayer.sym (Symbol.fill fs)))
      (fun v => Except.ok (some v))
  | _ => Except.ok none
termination_by x => (sizeOf x, 0)

/-- The ordered per-layer conversion loop shared by the three symbol
assemblies: one converted map per layer, in declaration order. -/
def convert_levels : List SymbolLayer → Except ConvErr (List Value)
  | [] => Except.ok []
  | l :: rest =>
    eBind (convert_symbol_layer l) (fun d =>
    eBind (convert_levels rest) (fun ds =>
    Except.ok (Value.dictV d :: ds)))
termination_by ls => (sizeOf ls, 0)

/-- An optional recursive layer conversion, as used for outline_layer:
the converted map of the layer when present. -/
def convert_opt_layer : Option SymbolLayer → Except ConvErr (Option Value)
  | some ol =>
    eBind (convert_symbol_layer ol) (fun d => Except.ok (some (Value.dictV d)))
  | none => Except.ok none
termination_by x => (sizeOf x, 0)

/-- An optional recursive full-symbol conversion, as used for
outline_symbol: performed through a fresh dispatcher when present. -/
def convert_opt_symbol : Option Symbol → Except ConvErr (Option Value)
  | some os =>
    eBind (convert_symbol (SymbolOrLayer.sym os)) (fun v => Except.ok (some v))
  | none => Except.ok none
termination_by x => (sizeOf x, 0)

/-- The bare-layer-or-full-symbol conversion used for the hatch-line and
fill-marker payloads: a full symbol goes through a fresh dispatcher, a bare
layer through the layer conversion. -/
def convert_sol : SymbolOrLayer → Except ConvErr Value
  | SymbolOrLayer.sym s => convert_symbol (SymbolOrLayer.sym s)
  | SymbolOrLayer.layer l =>
    eBind (convert_symbol_layer l) (fun d => Except.ok (Value.dictV d))
termination_by x => (sizeOf x, 0)

/-- The optional bare-layer-or-full-symbol conversion used for
pattern_marker, the hash line payload and decoration markers: absent input
leaves the pre-initialized null in place. -/
def convert_opt_sol : Option SymbolOrLayer → Except ConvErr (Option Value)
  | some (SymbolOrLayer.layer l) =>
    eBind (convert_symbol_layer l) (fun d => Except.ok (some (Value.dictV d)))
  | some (SymbolOrLayer.sym sy) =>
    eBind (convert_symbol (SymbolOrLayer.sym sy)) (fun v => Except.ok (some v))
  | none => Except.ok none
termination_by x => (sizeOf x, 0)

/-- The optional decoration conversion shared by the cartographic, marker
and hash line layers: a LineDecoration or a SimpleLineDecoration is
converted when present. -/
def convert_opt_dec : Option DecorationElem → Except ConvErr (Option Value)
  | some (DecorationElem.nested d) =>
    eBind (convert_decoration d) (fun dd => Except.ok (some (Value.dictV dd)))
  | some (DecorationElem.simpleDec d) =>
    eBind (convert_simple_line_decoration d)
      (fun dd => Except.ok (some (Value.dictV dd)))
  | none => Except.ok none
termination_by x => (sizeOf x, 0)

/-- DictionaryConverter.convert_symbol_layer: family dispatch by capability,
then the unconditional overlay of type, enabled, locked, and tags when the
tag list is non-empty. -/
def convert_symbol_layer (lay : SymbolLayer) : Except ConvErr Dict :=
  eBind (match lay with
         | SymbolLayer.fillLayer _ v => convert_fill_symbol_layer v
         | SymbolLayer.lineLayer _ v => convert_line_symbol_layer v
         | SymbolLayer.markerLayer _ v => convert_marker_symbol_layer v)
    (fun base =>
  Except.ok (
    let d1 := Dict.set base ("type") (Value.strV (layerTypeName lay))
    let d2 := Dict.set d1 ("enabled") (Value.boolV (SymbolLayer.base lay).enabled)
    let d3 := Dict.set d2 ("locked") (Value.boolV (SymbolLayer.base lay).locked)
    if (SymbolLayer.base lay).tags.isEmpty then d3
    else Dict.set d3 ("tags") (Value.listV (List.map Value.strV (SymbolLayer.base lay).tags))))
termination_by (sizeOf lay, 0)

/-- DictionaryConverter.convert_fill_symbol_layer: dispatch over the six
concrete fill-layer variants. -/
def convert_fill_symbol_layer : FillLayerVariant → Except ConvErr Dict
  | FillLayerVariant.simple color outline_layer outline_symbol =>
    convert_simple_fill_symbol_layer color outline_layer outline_symbol
  | FillLayerVariant.colorSym color => convert_color_symbol color
  | FillLayerVariant.gradient outline_layer outline_symbol ramp percent angle
      intervals gtype =>
    convert_gradient_fill_symbol_layer outline_layer outline_symbol ramp
      percent angle intervals gtype
  | FillLayerVariant.lineFill outline_layer outline_symbol line angle offset
      separation =>
    convert_line_fill_symbol_layer outline_layer outline_symbol line angle
      offset separation
  | FillLayerVariant.markerFill outline_layer outline_symbol marker offset_x
      offset_y separation_x separation_y random =>
    convert_marker_fill_symbol_layer outline_layer outline_symbol marker
      offset_x offset_y separation_x separation_y random
  | FillLayerVariant.pictureFill fg bg tr swap outline_layer outline_symbol
      pic angle scale_x scale_y offset_x offset_y separation_x separation_y =>
    convert_picture_fill_symbol_layer fg bg tr swap outline_layer
      outline_symbol pic angle scale_x scale_y offset_x offset_y separation_x
      separation_y
termination_by v => (sizeOf v, 1)

/-- DictionaryConverter.convert_simple_fill_symbol_layer: unguarded color
model read, then the two independently optional outline conversions. -/
def convert_simple_fill_symbol_layer (color : Option Color)
    (outline_layer : Option SymbolLayer) (outline_symbol : Option Symbol) :
    Except ConvErr Dict :=
  eBind (read_model color) (fun m =>
  eBind (convert_opt_layer outline_layer) (fun olv =>
  eBind (convert_opt_symbol outline_symbol) (fun osv =>
  Except.ok (
    let base : Dict := [("color", convert_color color), ("color_model", m)]
    let d1 := match olv with
              | some v => Dict.set base ("outline_layer") v
              | none => base
    match osv with
    | some v => Dict.set d1 ("outline_symbol") v
    | none => d1))))
termination_by
  (sizeOf (FillLayerVariant.simple color outline_layer outline_symbol), 0)

/-- DictionaryConverter.convert_gradient_fill_symbol_layer: optional outline
fields, then ramp, percent, angle, intervals and the gradient-type string. -/
def convert_gradient_fill_symbol_layer (outline_layer : Option SymbolLayer)
    (outline_symbol : Option Symbol) (ramp : ColorRamp)
    (percent angle intervals gtype : Int) : Except ConvErr Dict :=
  eBind (convert_opt_layer outline_layer) (fun olv =>
  eBind (convert_opt_symbol outline_symbol) (fun osv =>
  eBind (convert_gradient_type gtype) (fun gt =>
  Except.ok (
    let d0 : Dict := []
    let d1 := match olv with
              | some v => Dict.set d0 ("outline_layer") v
              | none => d0
    let d2 := match osv with
              | some v => Dict.set d1 ("outline_symbol") v
              | none => d1
    let d3 := Dict.set d2 ("ramp") (ColorRamp.to_dict ramp)
    let d4 := Dict.set d3 ("percent") (Value.intV percent)
    let d5 := Dict.set d4 ("angle") (Value.intV angle)
    let d6 := Dict.set d5 ("intervals") (Value.intV intervals)
    Dict.set d6 ("gradient_type") (Value.strV gt)))))
termination_by
  (sizeOf (FillLayerVariant.gradient outline_layer outline_symbol ramp
    percent angle intervals gtype), 0)

/-- DictionaryConverter.convert_line_fill_symbol_layer: optional outline
fields, the polymorphic hatch-line payload, then angle, offset,
separation. -/
def convert_line_fill_symbol_layer (outline_layer : Option SymbolLayer)
    (outline_symbol : Option Symbol) (line : SymbolOrLayer)
    (angle offset separation : Int) : Except ConvErr Dict :=
  eBind (convert_opt_layer outline_layer) (fun olv =>
  eBind (convert_opt_symbol outline_symbol) (fun osv =>
  eBind (convert_sol line) (fun lv =>
  Except.ok (
    let d0 : Dict := []
    let d1 := match olv with
              | some v => Dict.set d0 ("outline_layer") v
              | none => d0
    let d2 := match osv with
              | some v => Dict.set d1 ("outline_symbol") v
              | none => d1
    let d3 := Dict.set d2 ("line_symbol") lv
    let d4 := Dict.set d3 ("angle") (Value.intV angle)
    let d5 := Dict.set d4 ("offset") (Value.intV offset)
    Dict.set d5 ("separation") (Value.intV separation)))))
termination_by
  (sizeOf (FillLayerVariant.lineFill outline_layer outline_symbol line angle
    offset separation), 0)

/-- DictionaryConverter.convert_marker_fill_symbol_layer: optional outline
fields, the polymorphic marker payload, then offsets, separations and the
random flag. -/
def convert_marker_fill_symbol_layer (outline_layer : Option SymbolLayer)
    (outline_symbol : Option Symbol) (marker : SymbolOrLayer)
    (offset_x offset_y separation_x separation_y : Int) (random : Bool) :
    Except ConvErr Dict :=
  eBind (convert_opt_layer outline_layer) (fun olv =>
  eBind (convert_opt_symbol outline_symbol) (fun osv =>
  eBind (convert_sol marker) (fun mv =>
  Except.ok (
    let d0 : Dict := []
    let d1 := match olv with
              | some v => Dict.set d0 ("outline_layer") v
              | none => d0
    let d2 := match osv with
              | some v => Dict.set d1 ("outline_symbol") v
              | none => d1
    let d3 := Dict.set d2 ("marker") mv
    let d4 := Dict.set d3 ("offset_x") (Value.intV offset_x)
    let d5 := Dict.set d4 ("offset_y") (Value.intV offset_y)
    let d6 := Dict.set d5 ("separation_x") (Value.intV separation_x)
    let d7 := Dict.set d6 ("separation_y") (Value.intV separation_y)
    Dict.set d7 ("random") (Value.boolV random)))))
termination_by
  (sizeOf (FillLayerVariant.markerFill outline_layer outline_symbol marker
    offset_x offset_y separation_x separation_y random), 0)

/-- DictionaryConverter.convert_picture_fill_symbol_layer: the background
model is read unguarded, foreground and transparent models are guarded;
optional outline fields, then picture and the scalar fields. -/
def convert_picture_fill_symbol_layer (color_foreground color_background
    color_transparent : Option Color) (swap_fb_gb : Bool)
    (outline_layer : Option SymbolLayer) (outline_symbol : Option Symbol)
    (picture : Option Picture)
    (angle scale_x scale_y offset_x offset_y separation_x separation_y : Int) :
    Except ConvErr Dict :=
  eBind (read_model color_background) (fun bgm =>
  eBind (convert_opt_layer outline_layer) (fun olv =>
  eBind (convert_opt_symbol outline_symbol) (fun osv =>
  eBind (convert_picture picture) (fun pv =>
  Except.ok (
    let base : Dict :=
      [("color_foreground", convert_color color_foreground),
       ("color_foreground_model", read_model_guarded color_foreground),
       ("color_background", convert_color color_background),
       ("color_background_model", bgm),
       ("color_transparent", convert_color color_transparent),
       ("color_transparent_model", read_model_guarded color_transparent),
       ("swap_fg_bg", Value.boolV swap_fb_gb)]
    let d1 := match olv with
              | some v => Dict.set base ("outline_layer") v
              | none => base
    let d2 := match osv with
              | some v => Dict.set d1 ("outline_symbol") v
              | none => d1
    let d3 := Dict.set d2 ("picture") pv
    let d4 := Dict.set d3 ("angle") (Value.intV angle)
    let d5 := Dict.set d4 ("scale_x") (Value.intV scale_x)
    let d6 := Dict.set d5 ("scale_y") (Value.intV scale_y)
    let d7 := Dict.set d6 ("offset_x") (Value.intV offset_x)
    let d8 := Dict.set d7 ("offset_y") (Value.intV offset_y)
    let d9 := Dict.set d8 ("separation_x") (Value.intV separation_x)
    Dict.set d9 ("separation_y") (Value.intV separation_y))))))
termination_by
  (sizeOf (FillLayerVariant.pictureFill color_foreground color_background
    color_transparent swap_fb_gb outline_layer outline_symbol picture angle
    scale_x scale_y offset_x offset_y separation_x separation_y), 0)

/-- DictionaryConverter.convert_line_symbol_layer: dispatch over the four
concrete line-layer variants. -/
def convert_line_symbol_layer : LineLayerVariant → Except ConvErr Dict
  | LineLayerVariant.simpleLine color width line_type =>
    convert_simple_line_symbol_layer color width line_type
  | LineLayerVariant.cartographic color width offset cap join template
      decoration =>
    convert_cartographic_line_symbol_layer color width offset cap join
      template decoration
  | LineLayerVariant.markerLine color offset cap join template pattern_marker
      decoration =>
    convert_marker_line_symbol_layer color offset cap join template
      pattern_marker decoration
  | LineLayerVariant.hash color width offset cap join template line
      decoration =>
    convert_hash_line_symbol_layer color width offset cap join template line
      decoration
termination_by v => (sizeOf v, 1)

/-- DictionaryConverter.convert_cartographic_line_symbol_layer: unguarded
color model; template and decoration are pre-initialized to null and
replaced when present. -/
def convert_cartographic_line_symbol_layer (color : Option Color)
    (width offset : Int) (cap join : String)
    (template : Option LineTemplate) (decoration : Option DecorationElem) :
    Except ConvErr Dict :=
  eBind (read_model color) (fun m =>
  eBind (convert_opt_dec decoration) (fun dv =>
  Except.ok (
    let base : Dict :=
      [("color", convert_color color),
       ("color_model", m),
       ("width", Value.intV width),
       ("offset", Value.intV offset),
       ("cap", Value.strV cap),
       ("join", Value.strV join),
       ("template", Value.null),
       ("decoration", Value.null)]
    let d1 := match template with
              | some t => Dict.set base ("template") (Value.dictV (convert_template t))
              | none => base
    match dv with
    | some v => Dict.set d1 ("decoration") v
    | none => d1)))
termination_by
  (sizeOf (LineLayerVariant.cartographic color width offset cap join
    template decoration), 0)

/-- DictionaryConverter.convert_marker_line_symbol_layer: guarded color
model; template, pattern_marker and decoration pre-initialized to null. -/
def convert_marker_line_symbol_layer (color : Option Color) (offset : Int)
    (cap join : String) (template : Option LineTemplate)
    (pattern_marker : Option SymbolOrLayer)
    (decoration : Option DecorationElem) : Except ConvErr Dict :=
  eBind (convert_opt_sol pattern_marker) (fun pmv =>
  eBind (convert_opt_dec decoration) (fun dv =>
  Except.ok (
    let base : Dict :=
      [("color", convert_color color),
       ("color_model", read_model_guarded color),
       ("offset", Value.intV offset),
       ("cap", Value.strV cap),
       ("join", Value.strV join),
       ("template", Value.null),
       ("pattern_marker", Value.null),
       ("decoration", Value.null)]
    let d1 := match template with
              | some t => Dict.set base ("template") (Value.dictV (convert_template t))
              | none => base
    let d2 := match pmv with
              | some v => Dict.set d1 ("pattern_marker") v
              | none => d1
    match dv with
    | some v => Dict.set d2 ("decoration") v
    | none => d2)))
termination_by
  (sizeOf (LineLayerVariant.markerLine color offset cap join template
    pattern_marker decoration), 0)

/-- DictionaryConverter.convert_hash_line_symbol_layer: unguarded color
model; template, decoration and line pre-initialized to null. -/
def convert_hash_line_symbol_layer (color : Option Color)
    (width offset : Int) (cap join : String)
    (template : Option LineTemplate) (line : Option SymbolOrLayer)
    (decoration : Option DecorationElem) : Except ConvErr Dict :=
  eBind (read_model color) (fun m =>
  eBind (convert_opt_sol line) (fun lv =>
  eBind (convert_opt_dec decoration) (fun dv =>
  Except.ok (
    let base : Dict :=
      [("color", convert_color color),
       ("color_model", m),
       ("width", Value.intV width),
       ("offset", Value.intV offset),
       ("cap", Value.strV cap),
       ("join", Value.strV join),
       ("template", Value.null),
       ("decoration", Value.null),
       ("line", Value.null)]
    let d1 := match template with
              | some t => Dict.set base ("template") (Value.dictV (convert_template t))
              | none => base
    let d2 := match lv with
              | some v => Dict.set d1 ("line") v
              | none => d1
    match dv with
    | some v => Dict.set d2 ("decoration") v
    | none => d2))))
termination_by
  (sizeOf (LineLayerVariant.hash color width offset cap join template line
    decoration), 0)

/-- DictionaryConverter.convert_decoration: an ordered sequence of converted
decoration elements under the decorations key. -/
def convert_decoration : LineDecoration → Except ConvErr Dict
  | LineDecoration.mk elems =>
    eBind (convert_decoration_elems elems) (fun vs =>
    Except.ok [("decorations", Value.listV vs)])
termination_by d => (sizeOf d, 0)

/-- The ordered loop over decoration elements: nested decorations and simple
decorations are converted in sequence order. -/
def convert_decoration_elems : List DecorationElem → Except ConvErr (List Value)
  | [] => Except.ok []
  | DecorationElem.nested d :: rest =>
    eBind (convert_decoration d) (fun dd =>
    eBind (convert_decoration_elems rest) (fun vs =>
    Except.ok (Value.dictV dd :: vs)))
  | DecorationElem.simpleDec d :: rest =>
    eBind (convert_simple_line_decoration d) (fun dd =>
    eBind (convert_decoration_elems rest) (fun vs =>
    Except.ok (Value.dictV dd :: vs)))
termination_by es => (sizeOf es, 0)

/-- DictionaryConverter.convert_simple_line_decoration: flags and positions,
with the marker key pre-initialized to null and replaced by the bare-layer
or full-symbol conversion when a marker payload is attached. -/
def convert_simple_line_decoration : SimpleLineDecoration → Except ConvErr Dict
  | SimpleLineDecoration.mk fixed_angle flip_first flip_all marker_positions
      marker =>
    eBind (convert_opt_sol marker) (fun mv =>
    Except.ok (
      let base : Dict :=
        [("fixed_angle", Value.boolV fixed_angle),
         ("flip_first", Value.boolV flip_first),
         ("flip_all", Value.boolV flip_all),
         ("marker", Value.null),
         ("positions", Value.listV (List.map Value.intV marker_positions))]
      match mv with
      | some v => Dict.set base ("marker") v
      | none => base))
termination_by d => (sizeOf d, 0)

end

/-- DictionaryConverter.convert_fill_symbol: accepts a bare layer or a full
fill symbol and assembles the type and levels map. -/
def convert_fill_symbol : Sum SymbolLayer FillSymbol → Except ConvErr Value
  | Sum.inl lay =>
    eBind (convert_symbol_layer lay)
      (fun d => Except.ok (fillSymbolDict [Value.dictV d]))
  | Sum.inr (FillSymbol.mk ls) =>
    eBind (convert_levels ls) (fun ds => Except.ok (fillSymbolDict ds))

/-- DictionaryConverter.convert_line_symbol: accepts a bare layer or a full
line symbol and assembles the type and levels map. -/
def convert_line_symbol : Sum SymbolLayer LineSymbol → Except ConvErr Value
  | Sum.inl lay =>
    eBind (convert_symbol_layer lay)
      (fun d => Except.ok (lineSymbolDict [Value.dictV d]))
  | Sum.inr (LineSymbol.mk ls) =>
    eBind (convert_levels ls) (fun ds => Except.ok (lineSymbolDict ds))

/-- DictionaryConverter.convert_marker_symbol: reads symbol.halo,
symbol.halo_size and symbol.halo_symbol before the bare-layer check, so a
bare symbol layer raises AttributeError; for a full marker symbol it
converts an attached FillSymbol halo through a fresh dispatcher and then the
ordered levels. -/
def convert_marker_symbol : Sum SymbolLayer MarkerSymbol → Except ConvErr Value
  | Sum.inl _ =>
    Except.error (ConvErr.attributeError ("SymbolLayer has no attribute halo"))
  | Sum.inr (MarkerSymbol.mk ls halo halo_size halo_symbol) =>
    eBind (convert_halo halo_symbol) (fun hv =>
    eBind (convert_levels ls) (fun ds =>
    Except.ok (markerSymbolDict ds halo halo_size halo_symbol hv)))

/-- The family dispatch step of DictionaryConverter.convert_symbol_layer:
the base map produced by the matching family converter, before the universal
fields are overlaid. -/
def convert_layer_family : SymbolLayer → Except ConvErr Dict
  | SymbolLayer.fillLayer _ v => convert_fill_symbol_layer v
  | SymbolLayer.lineLayer _ v => convert_line_symbol_layer v
  | SymbolLayer.markerLayer _ v => convert_marker_symbol_layer v

theorem convert_symbol_layer_eq (lay : SymbolLayer) :
    convert_symbol_layer lay =
    eBind (convert_layer_family lay) (fun base =>
      Except.ok (
        let d1 := Dict.set base ("type") (Value.strV (layerTypeName lay))
        let d2 := Dict.set d1 ("enabled") (Value.boolV (SymbolLayer.base lay).enabled)
        let d3 := Dict.set d2 ("locked") (Value.boolV (SymbolLayer.base lay).locked)
        if (SymbolLayer.base lay).tags.isEmpty then d3
        else Dict.set d3 ("tags") (Value.listV (List.map Value.strV (SymbolLayer.base lay).tags)))) := by
  cases lay <;> rw [convert_symbol_layer] <;> rfl

@[simp]
theorem Dict.get_nil (k : String) : Dict.get [] k = none := rfl

theorem Dict.get_cons (k1 : String) (v1 : Value) (d : Dict) (k : String) :
    Dict.get ((k1, v1) :: d) k = if k1 == k then some v1 else Dict.get d k := rfl

@[simp]
theorem Dict.get_set_self (d : Dict) (k : String) (v : Value) :
    Dict.get (Dict.set d k v) k = some v := by
  induction d with
  | nil => simp [Dict.set, Dict.get]
  | cons p rest ih =>
    obtain ⟨k1, v1⟩ := p
    by_cases hk : k1 == k <;> simp [Dict.set, Dict.get, hk, ih]

theorem Dict.get_set_ne (d : Dict) (k1 k : String) (v : Value) (h : k ≠ k1) :
    Dict.get (Dict.set d k1 v) k = Dict.get d k := by
  have hb : (k1 == k) = false := beq_eq_false_iff_ne.mpr (Ne.symm h)
  induction d with
  | nil => simp [Dict.set, Dict.get, hb]
  | cons p rest ih =>
    obtain ⟨ka, va⟩ := p
    by_cases hk : ka == k1
    · have hka : ka = k1 := by simpa using hk
      subst hka
      simp [Dict.set, Dict.get, hb]
    · simp [Dict.set, Dict.get, hk, ih]

theorem Dict.hasKey_cons (k1 : String) (v1 : Value) (d : Dict) (k : String) :
    Dict.hasKey ((k1, v1) :: d) k = ((k1 == k) || Dict.hasKey d k) := by
  by_cases hk : k1 == k <;> simp [Dict.hasKey, hk]

theorem Dict.hasKey_set (d : Dict) (k1 k : String) (v : Value) :
    Dict.hasKey (Dict.set d k1 v) k = ((k1 == k) || Dict.hasKey d k) := by
  induction d with
  | nil => by_cases hk : k1 == k <;> simp [Dict.set, Dict.hasKey, hk]
  | cons p rest ih =>
    obtain ⟨ka, va⟩ := p
    by_cases hk : ka == k1
    · have hka : ka = k1 := by simpa using hk
      subst hka
      by_cases hkk : ka == k <;> simp [Dict.set, Dict.hasKey, hkk]
    · by_cases hkk : ka == k <;> simp [Dict.set, Dict.hasKey, hk, hkk, ih]

theorem Dict.hasKey_iff_get (d : Dict) (k : String) :
    Dict.hasKey d k = true ↔ ∃ v : Value, Dict.get d k = some v := by
  induction d with
  | nil => simp [Dict.hasKey, Dict.get]
  | cons p rest ih =>
    obtain ⟨k1, v1⟩ := p
    by_cases hk : k1 == k <;> simp [Dict.hasKey, Dict.get, hk, ih]

theorem Dict.hasKey_of_get (d : Dict) (k : String) (v : Value)
    (h : Dict.get d k = some v) : Dict.hasKey d k = true :=
  (Dict.hasKey_iff_get d k).mpr ⟨v, h⟩

theorem convert_symbol_sym_fill (s : FillSymbol) :
    convert_symbol (SymbolOrLayer.sym (Symbol.fill s)) =
    convert_fill_symbol (Sum.inr s) := by
  cases s with
  | mk ls => simp [convert_symbol, convert_fill_symbol]

theorem convert_symbol_sym_line (s : LineSymbol) :
    convert_symbol (SymbolOrLayer.sym (Symbol.line s)) =
    convert_line_symbol (Sum.inr s) := by
  cases s with
  | mk ls => simp [convert_symbol, convert_line_symbol]

theorem convert_symbol_sym_marker (s : MarkerSymbol) :
    convert_symbol (SymbolOrLayer.sym (Symbol.marker s)) =
    convert_marker_symbol (Sum.inr s) := by
  cases s with
  | mk ls halo halo_size halo_symbol =>
    simp [convert_symbol, convert_marker_symbol]

theorem convert_symbol_bare_layer (lay : SymbolLayer) :
    convert_symbol (SymbolOrLayer.layer lay) =
    (match lay with
     | SymbolLayer.fillLayer _ _ => convert_fill_symbol (Sum.inl lay)
     | SymbolLayer.lineLayer _ _ => convert_line_symbol (Sum.inl lay)
     | SymbolLayer.markerLayer _ _ => convert_marker_symbol (Sum.inl lay)) := by
  cases lay <;> rw [convert_symbol] <;> rfl

set_option maxHeartbeats 2000000 in
theorem family_base_no_tags (lay : SymbolLayer) (d : Dict)
    (h : convert_layer_family lay = Except.ok d) :
    Dict.hasKey d ("tags") = false := by
  cases lay <;> rename_i b v <;> cases v <;>
    simp only [convert_layer_family, convert_fill_symbol_layer,
      convert_line_symbol_layer, convert_marker_symbol_layer] at h
  all_goals first
    | rw [convert_simple_fill_symbol_layer.eq_def] at h
    | rw [convert_color_symbol.eq_def] at h
    | rw [convert_gradient_fill_symbol_layer.eq_def] at h
    | rw [convert_line_fill_symbol_layer.eq_def] at h
    | rw [convert_marker_fill_symbol_layer.eq_def] at h
    | rw [convert_picture_fill_symbol_layer.eq_def] at h
    | rw [convert_simple_line_symbol_layer.eq_def] at h
    | rw [convert_cartographic_line_symbol_layer.eq_def] at h
    | rw [convert_marker_line_symbol_layer.eq_def] at h
    | rw [convert_hash_line_symbol_layer.eq_def] at h
    | rw [convert_simple_marker_symbol_layer.eq_def] at h
    | rw [convert_character_marker_symbol_layer.eq_def] at h
    | rw [convert_arrow_marker_symbol_layer.eq_def] at h
    | rw [convert_picture_marker_symbol_layer.eq_def] at h
  all_goals simp only [eBind] at h
  all_goals try split at h
  all_goals try split at h
  all_goals try split at h
  all_goals try split at h
  all_goals try split at h
  all_goals try simp at h
  all_goals try subst h
  all_goals try split
  all_goals simp [Dict.hasKey_set, Dict.hasKey_cons, Dict.hasKey]

/-- The overlay behaviour of convert_symbol_layer over the family base map,
shared by several claim proofs. -/
theorem layer_overlay_spec (lay : SymbolLayer) (d : Dict)
    (h : convert_symbol_layer lay = Except.ok d) :
    ∃ b : Dict, convert_layer_family lay = Except.ok b ∧
      Dict.get d ("type") = some (Value.strV (layerTypeName lay)) ∧
      Dict.get d ("enabled") = some (Value.boolV (SymbolLayer.base lay).enabled) ∧
      Dict.get d ("locked") = some (Value.boolV (SymbolLayer.base lay).locked) ∧
      (Dict.hasKey d ("tags") = true ↔ (SymbolLayer.base lay).tags ≠ []) ∧
      (∀ k : String, k ≠ ("type") → k ≠ ("enabled") → k ≠ ("locked") →
        k ≠ ("tags") → Dict.get d k = Dict.get b k) := by
  rw [convert_symbol_layer_eq] at h
  simp only [eBind] at h
  split at h
  · simp at h
  · rename_i base heq
    refine ⟨base, heq, ?_⟩
    simp only [Except.ok.injEq] at h
    by_cases hc : (SymbolLayer.base lay).tags.isEmpty
    · simp [hc] at h
      subst h
      refine ⟨?_, ?_, ?_, ?_, ?_⟩
      · simp [Dict.get_set_ne, Dict.get_set_self]
      · simp [Dict.get_set_ne, Dict.get_set_self]
      · simp [Dict.get_set_self]
      · rw [List.isEmpty_iff] at hc
        simp [Dict.hasKey_set, family_base_no_tags lay base heq, hc]
      · intro k h1 h2 h3 h4
        rw [Dict.get_set_ne _ _ _ _ h3, Dict.get_set_ne _ _ _ _ h2,
          Dict.get_set_ne _ _ _ _ h1]
    · simp [hc] at h
      subst h
      refine ⟨?_, ?_, ?_, ?_, ?_⟩
      · simp [Dict.get_set_ne, Dict.get_set_self]
      · simp [Dict.get_set_ne, Dict.get_set_self]
      · simp [Dict.get_set_ne, Dict.get_set_self]
      · rw [List.isEmpty_iff] at hc
        simp [Dict.hasKey_set, hc]
      · intro k h1 h2 h3 h4
        rw [Dict.get_set_ne _ _ _ _ h4, Dict.get_set_ne _ _ _ _ h3,
          Dict.get_set_ne _ _ _ _ h2, Dict.get_set_ne _ _ _ _ h1]

/-- An rgb color used by concrete scenario inputs. -/
def rgbRed : Color :=
  Color.mk ("rgb")
    (Value.dictV [("red", Value.intV 255), ("green", Value.intV 0), ("blue", Value.intV 0)])

/-- The scenario layer of claim C1: a SimpleFillSymbolLayer with an rgb
color, no outlines, enabled, not locked, empty tags. -/
def c1layer : SymbolLayer :=
  SymbolLayer.fillLayer (LayerBase.mk true false [])
    (FillLayerVariant.simple (some rgbRed) none none)

/-- The expected conversion of the C1 scenario layer. -/
def c1dict : Dict :=
  [("color", Color.to_dict rgbRed),
   ("color_model", Value.strV ("rgb")),
   ("type", Value.strV ("SimpleFillSymbolLayer")),
   ("enabled", Value.boolV true),
   ("locked", Value.boolV false)]

/-- C1: for every supported symbol layer, the converted map carries the
universal fields type (the concrete variant class name), enabled and locked,
overlaid on the base map of the family converter (all other keys of the
output agree with the base map); the tags key is present exactly when the
tag list is non-empty.  In particular, a SimpleFillSymbolLayer with an rgb
color, no outline_layer, no outline_symbol, enabled true, locked false and
empty tags converts to a map whose key sequence is exactly color,
color_model, type, enabled, locked, with no tags or outline keys. -/
theorem c1_universal_overlay :
    (∀ (lay : SymbolLayer) (d : Dict), convert_symbol_layer lay = Except.ok d →
      ∃ b : Dict, convert_layer_family lay = Except.ok b ∧
        Dict.get d ("type") = some (Value.strV (layerTypeName lay)) ∧
        Dict.get d ("enabled") = some (Value.boolV (SymbolLayer.base lay).enabled) ∧
        Dict.get d ("locked") = some (Value.boolV (SymbolLayer.base lay).locked) ∧
        (Dict.hasKey d ("tags") = true ↔ (SymbolLayer.base lay).tags ≠ []) ∧
        (∀ k : String, k ≠ ("type") → k ≠ ("enabled") → k ≠ ("locked") →
          k ≠ ("tags") → Dict.get d k = Dict.get b k)) ∧
    (convert_symbol_layer c1layer = Except.ok c1dict ∧
      Dict.keys c1dict = [("color"), ("color_model"), ("type"), ("enabled"), ("locked")]) := by
  constructor
  · exact layer_overlay_spec
  · constructor
    · simp [c1layer, c1dict, rgbRed, convert_symbol_layer, convert_fill_symbol_layer,
        convert_simple_fill_symbol_layer, convert_opt_layer, convert_opt_symbol,
        read_model, convert_color, Color.to_dict, Dict.set, layerTypeName,
        SymbolLayer.base]
    · simp [c1dict, Dict.keys]

/-- Witness for C1 at the concrete scenario layer. -/
theorem c1_universal_overlay_witness :
    Dict.get c1dict ("type") = some (Value.strV ("SimpleFillSymbolLayer")) := by
  have H := c1_universal_overlay.1 c1layer c1dict c1_universal_overlay.2.1
  obtain ⟨b, hb, hty, hrest⟩ := H
  have : layerTypeName c1layer = ("SimpleFillSymbolLayer") := by
    simp [c1layer, layerTypeName]
  rw [this] at hty
  exact hty

/-- The gradient family converter always emits the gradient_type key as the
string produced by convert_gradient_type (shared helper). -/
theorem gradient_family_emits (ol : Option SymbolLayer) (os : Option Symbol)
    (ramp : ColorRamp) (percent angle intervals code : Int) (bd : Dict)
    (h : convert_gradient_fill_symbol_layer ol os ramp percent angle intervals
      code = Except.ok bd) :
    ∃ gt : String, convert_gradient_type code = Except.ok gt ∧
      Dict.get bd ("gradient_type") = some (Value.strV gt) := by
  rw [convert_gradient_fill_symbol_layer.eq_def] at h
  simp only [eBind] at h
  split at h
  · simp at h
  rename_i olv holv
  split at h
  · simp at h
  rename_i osv hosv
  split at h
  · simp at h
  rename_i gt hgt
  simp only [Except.ok.injEq] at h
  subst h
  exact ⟨gt, hgt, by simp⟩

/-- The C2 scenario: a gradient fill layer with a given numeric
gradient-type code, wrapped in a one-layer fill symbol. -/
def c2symbol (code : Int) : SymbolOrLayer :=
  SymbolOrLayer.sym (Symbol.fill (FillSymbol.mk
    [SymbolLayer.fillLayer (LayerBase.mk true false [])
      (FillLayerVariant.gradient none none (ColorRamp.mk Value.null) 0 0 0 code)]))

/-- C2: convert_gradient_type maps each of the four closed enumeration
members to its string exactly; a converted GradientFillSymbolLayer always
carries the gradient_type string produced by convert_gradient_type; and for
a code outside the enumeration the whole top-level conversion aborts with
the UnsupportedVariant error, producing no output structure. -/
theorem c2_gradient_type_closed_enum :
    (∀ code : Int,
      (convert_gradient_type code = Except.ok ("linear") ↔
        code = GradientFillSymbolLayer.LINEAR) ∧
      (convert_gradient_type code = Except.ok ("circular") ↔
        code = GradientFillSymbolLayer.CIRCULAR) ∧
      (convert_gradient_type code = Except.ok ("buffered") ↔
        code = GradientFillSymbolLayer.BUFFERED) ∧
      (convert_gradient_type code = Except.ok ("rectangular") ↔
        code = GradientFillSymbolLayer.RECTANGULAR) ∧
      (code ≠ GradientFillSymbolLayer.LINEAR →
       code ≠ GradientFillSymbolLayer.CIRCULAR →
       code ≠ GradientFillSymbolLayer.BUFFERED →
       code ≠ GradientFillSymbolLayer.RECTANGULAR →
       convert_gradient_type code = Except.error (ConvErr.unsupportedVariant
         (("Gradient type ") ++ toString code ++ (" not implemented yet"))))) ∧
    (∀ (b : LayerBase) (ol : Option SymbolLayer) (os : Option Symbol)
      (ramp : ColorRamp) (percent angle intervals code : Int) (d : Dict),
      convert_symbol_layer (SymbolLayer.fillLayer b
        (FillLayerVariant.gradient ol os ramp percent angle intervals code)) =
        Except.ok d →
      ∃ gt : String, convert_gradient_type code = Except.ok gt ∧
        Dict.get d ("gradient_type") = some (Value.strV gt)) ∧
    (∀ code : Int,
      code ≠ GradientFillSymbolLayer.LINEAR →
      code ≠ GradientFillSymbolLayer.CIRCULAR →
      code ≠ GradientFillSymbolLayer.BUFFERED →
      code ≠ GradientFillSymbolLayer.RECTANGULAR →
      convert_symbol (c2symbol code) = Except.error (ConvErr.unsupportedVariant
        (("Gradient type ") ++ toString code ++ (" not implemented yet")))) := by
  refine ⟨?_, ?_, ?_⟩
  · intro code
    rw [convert_gradient_type]
    split_ifs with h1 h2 h3 h4 <;>
      simp_all [GradientFillSymbolLayer.LINEAR, GradientFillSymbolLayer.CIRCULAR,
        GradientFillSymbolLayer.BUFFERED, GradientFillSymbolLayer.RECTANGULAR]
  · intro b ol os ramp percent angle intervals code d h
    obtain ⟨base, heq, hty, hen, hlo, hta, hpre⟩ := layer_overlay_spec _ _ h
    simp only [convert_layer_family, convert_fill_symbol_layer] at heq
    obtain ⟨gt, hgt, hget⟩ := gradient_family_emits _ _ _ _ _ _ _ _ heq
    refine ⟨gt, hgt, ?_⟩
    rw [hpre ("gradient_type") (by simp) (by simp) (by simp) (by simp)]
    exact hget
  · intro code h1 h2 h3 h4
    simp [c2symbol, convert_symbol, convert_levels, convert_symbol_layer,
      convert_fill_symbol_layer, convert_gradient_fill_symbol_layer,
      convert_opt_layer, convert_opt_symbol, convert_gradient_type,
      h1, h2, h3, h4]

/-- Witness for C2: a gradient layer with code 7 aborts the whole conversion
with the UnsupportedVariant error. -/
theorem c2_gradient_type_closed_enum_witness :
    convert_symbol (c2symbol 7) = Except.error (ConvErr.unsupportedVariant
      (("Gradient type ") ++ toString (7 : Int) ++ (" not implemented yet"))) := by
  exact c2_gradient_type_closed_enum.2.2 7 (by decide) (by decide) (by decide) (by decide)

/-- The C3 bare marker layer: a SimpleMarkerSymbolLayer passed directly to
the conversion instead of being wrapped in a MarkerSymbol. -/
def c3layer : SymbolLayer :=
  SymbolLayer.markerLayer (LayerBase.mk true false [])
    (MarkerLayerVariant.simpleMarker (some rgbRed) ("circle") 1 0 0 false
      (some rgbRed) 1)

/-- The converted map of the C3 marker layer. -/
def c3dict : Dict :=
  [("color", Color.to_dict rgbRed),
   ("color_model", Value.strV ("rgb")),
   ("marker_type", Value.strV ("circle")),
   ("size", Value.intV 1),
   ("x_offset", Value.intV 0),
   ("y_offset", Value.intV 0),
   ("outline_enabled", Value.boolV false),
   ("outline_color_model", Value.strV ("rgb")),
   ("outline_color", Color.to_dict rgbRed),
   ("outline_size", Value.intV 1),
   ("type", Value.strV ("SimpleMarkerSymbolLayer")),
   ("enabled", Value.boolV true),
   ("locked", Value.boolV false)]

/-- Concrete evaluation of the one-layer marker symbol wrapping the C3
layer (shared helper). -/
theorem c3_wrapped_eval :
    convert_symbol (SymbolOrLayer.sym (Symbol.marker
      (MarkerSymbol.mk [c3layer] false 0 none))) =
      Except.ok (Value.dictV
        [("type", Value.strV ("MarkerSymbol")),
         ("levels", Value.listV [Value.dictV c3dict]),
         ("halo", Value.boolV false),
         ("halo_size", Value.intV 0),
         ("halo_symbol_type", Value.strV ("NoneType"))]) := by
  simp [c3layer, c3dict, rgbRed, convert_symbol, convert_halo, convert_levels,
    convert_symbol_layer, convert_marker_symbol_layer,
    convert_simple_marker_symbol_layer, read_model, read_to_dict,
    convert_color, Color.to_dict, Dict.set, layerTypeName, SymbolLayer.base,
    markerSymbolDict, haloTypeName]

/-- C3: evaluating the code at the failing input.  Converting the bare
marker layer raises AttributeError (convert_marker_symbol reads symbol.halo
before the bare-layer check), while converting the one-layer MarkerSymbol
wrapping the same layer succeeds with a one-element levels sequence
containing the converted layer map, so the bare-layer conversion does not
produce the levels sequence the claim requires. -/
theorem c3_bare_marker_layer_attribute_error :
    convert_symbol (SymbolOrLayer.layer c3layer) =
      Except.error (ConvErr.attributeError ("SymbolLayer has no attribute halo")) ∧
    convert_symbol (SymbolOrLayer.sym (Symbol.marker
      (MarkerSymbol.mk [c3layer] false 0 none))) =
      Except.ok (Value.dictV
        [("type", Value.strV ("MarkerSymbol")),
         ("levels", Value.listV [Value.dictV c3dict]),
         ("halo", Value.boolV false),
         ("halo_size", Value.intV 0),
         ("halo_symbol_type", Value.strV ("NoneType"))]) := by
  constructor
  · simp [c3layer, convert_symbol]
  · exact c3_wrapped_eval

/-- C4: the levels sequence has one entry per input layer in declaration
order: the conversion of layer i is entry i, no layer dropped, duplicated or
resorted; and each of the three symbol assemblies (the marker assembly under
any halo configuration) emits exactly the convert_levels sequence under the
levels key. -/
theorem c4_levels_order :
    (∀ (ls : List SymbolLayer) (ds : List Value),
      convert_levels ls = Except.ok ds →
      ds.length = ls.length ∧
      ∀ (i : Nat) (h1 : i < ls.length) (h2 : i < ds.length),
        ∃ di : Dict, convert_symbol_layer (ls.get ⟨i, h1⟩) = Except.ok di ∧
          ds.get ⟨i, h2⟩ = Value.dictV di) ∧
    (∀ (ls : List SymbolLayer) (v : Value),
      convert_symbol (SymbolOrLayer.sym (Symbol.fill (FillSymbol.mk ls))) =
        Except.ok v →
      ∃ ds : List Value, convert_levels ls = Except.ok ds ∧ v = fillSymbolDict ds) ∧
    (∀ (ls : List SymbolLayer) (v : Value),
      convert_symbol (SymbolOrLayer.sym (Symbol.line (LineSymbol.mk ls))) =
        Except.ok v →
      ∃ ds : List Value, convert_levels ls = Except.ok ds ∧ v = lineSymbolDict ds) ∧
    (∀ (ls : List SymbolLayer) (halo : Bool) (hs : Int)
      (hsym : Option Symbol) (v : Value),
      convert_symbol (SymbolOrLayer.sym (Symbol.marker
        (MarkerSymbol.mk ls halo hs hsym))) = Except.ok v →
      ∃ (ds : List Value) (hv : Option Value),
        convert_levels ls = Except.ok ds ∧
        convert_halo hsym = Except.ok hv ∧
        v = markerSymbolDict ds halo hs hsym hv) := by
  refine ⟨?_, ?_, ?_, ?_⟩
  · intro ls
    induction ls with
    | nil =>
      intro ds h
      rw [convert_levels] at h
      simp only [Except.ok.injEq] at h
      subst h
      exact ⟨rfl, fun i h1 h2 => absurd h1 (by simp)⟩
    | cons l rest ih =>
      intro ds h
      rw [convert_levels] at h
      simp only [eBind] at h
      split at h
      · simp at h
      rename_i d hd
      split at h
      · simp at h
      rename_i tail htail
      simp only [Except.ok.injEq] at h
      subst h
      obtain ⟨hlen, hidx⟩ := ih tail htail
      refine ⟨by simp [hlen], ?_⟩
      intro i h1 h2
      cases i with
      | zero => exact ⟨d, hd, rfl⟩
      | succ j =>
        have hj1 : j < rest.length := by simpa using h1
        have hj2 : j < tail.length := by simpa using h2
        simpa using hidx j hj1 hj2
  · intro ls v h
    rw [convert_symbol] at h
    simp only [eBind] at h
    split at h
    · simp at h
    rename_i ds hds
    simp only [Except.ok.injEq] at h
    exact ⟨ds, hds, h.symm⟩
  · intro ls v h
    rw [convert_symbol] at h
    simp only [eBind] at h
    split at h
    · simp at h
    rename_i ds hds
    simp only [Except.ok.injEq] at h
    exact ⟨ds, hds, h.symm⟩
  · intro ls halo hs hsym v h
    rw [convert_symbol] at h
    simp only [eBind] at h
    split at h
    · simp at h
    rename_i hv hhv
    split at h
    · simp at h
    rename_i ds hds
    simp only [Except.ok.injEq] at h
    exact ⟨ds, hv, hds, hhv, h.symm⟩

/-- Witness for C4 at a concrete one-layer fill symbol. -/
theorem c4_levels_order_witness :
    List.length [Value.dictV c1dict] = List.length [c1layer] := by
  have H := c4_levels_order.1 [c1layer] [Value.dictV c1dict]
    (by
      rw [convert_levels, convert_levels]
      simp [c1layer, c1dict, rgbRed, convert_symbol_layer,
        convert_fill_symbol_layer, convert_simple_fill_symbol_layer,
        convert_opt_layer, convert_opt_symbol, read_model, convert_color,
        Color.to_dict, Dict.set, layerTypeName, SymbolLayer.base])
  exact H.1

/-- The cartographic family converter always carries template and decoration
keys: explicit null when the field is absent, the leaf conversion when
present (shared helper). -/
theorem cartographic_family_spec (color : Option Color) (width offset : Int)
    (cap join : String) (template : Option LineTemplate)
    (decoration : Option DecorationElem) (bd : Dict)
    (h : convert_cartographic_line_symbol_layer color width offset cap join
      template decoration = Except.ok bd) :
    Dict.hasKey bd ("template") = true ∧
    Dict.hasKey bd ("decoration") = true ∧
    (template = none → Dict.get bd ("template") = some Value.null) ∧
    (∀ t : LineTemplate, template = some t →
      Dict.get bd ("template") = some (Value.dictV (convert_template t))) ∧
    (decoration = none → Dict.get bd ("decoration") = some Value.null) ∧
    (∀ (ld : LineDecoration) (dd : Dict),
      decoration = some (DecorationElem.nested ld) →
      convert_decoration ld = Except.ok dd →
      Dict.get bd ("decoration") = some (Value.dictV dd)) ∧
    (∀ (sd : SimpleLineDecoration) (dd : Dict),
      decoration = some (DecorationElem.simpleDec sd) →
      convert_simple_line_decoration sd = Except.ok dd →
      Dict.get bd ("decoration") = some (Value.dictV dd)) := by
  rw [convert_cartographic_line_symbol_layer.eq_def] at h
  simp only [eBind] at h
  split at h
  · simp at h
  rename_i m hm
  split at h
  · simp at h
  rename_i dv hdv
  simp only [Except.ok.injEq] at h
  subst h
  refine ⟨?_, ?_, ?_, ?_, ?_, ?_, ?_⟩
  · cases template <;> cases dv <;>
      simp [Dict.hasKey_set, Dict.hasKey_cons, Dict.hasKey]
  · cases template <;> cases dv <;>
      simp [Dict.hasKey_set, Dict.hasKey_cons, Dict.hasKey]
  · intro ht
    subst ht
    cases dv <;> simp [Dict.get_set_ne, Dict.get_set_self, Dict.get]
  · intro t ht
    subst ht
    cases dv <;> simp [Dict.get_set_ne, Dict.get_set_self]
  · intro hdec
    subst hdec
    simp only [convert_opt_dec, Except.ok.injEq] at hdv
    subst hdv
    cases template <;> simp [Dict.get_set_ne, Dict.get_set_self, Dict.get]
  · intro ld dd hdec hld
    subst hdec
    simp only [convert_opt_dec, eBind, hld, Except.ok.injEq] at hdv
    subst hdv
    cases template <;> simp [Dict.get_set_ne, Dict.get_set_self]
  · intro sd dd hdec hld
    subst hdec
    simp only [convert_opt_dec, eBind, hld, Except.ok.injEq] at hdv
    subst hdv
    cases template <;> simp [Dict.get_set_ne, Dict.get_set_self]

/-- C5: every converted CartographicLineSymbolLayer carries the template and
decoration keys; template is explicit null when absent and the Template leaf
conversion (pattern_interval plus pattern_parts in input order) when
present; decoration is explicit null when absent and the decoration
conversion when present. -/
theorem c5_cartographic_template_decoration :
    ∀ (b : LayerBase) (color : Option Color) (width offset : Int)
      (cap join : String) (template : Option LineTemplate)
      (decoration : Option DecorationElem) (d : Dict),
      convert_symbol_layer (SymbolLayer.lineLayer b
        (LineLayerVariant.cartographic color width offset cap join template
          decoration)) = Except.ok d →
      Dict.hasKey d ("template") = true ∧
      Dict.hasKey d ("decoration") = true ∧
      (template = none → Dict.get d ("template") = some Value.null) ∧
      (∀ t : LineTemplate, template = some t →
        Dict.get d ("template") = some (Value.dictV (convert_template t))) ∧
      (decoration = none → Dict.get d ("decoration") = some Value.null) ∧
      (∀ (ld : LineDecoration) (dd : Dict),
        decoration = some (DecorationElem.nested ld) →
        convert_decoration ld = Except.ok dd →
        Dict.get d ("decoration") = some (Value.dictV dd)) ∧
      (∀ (sd : SimpleLineDecoration) (dd : Dict),
        decoration = some (DecorationElem.simpleDec sd) →
        convert_simple_line_decoration sd = Except.ok dd →
        Dict.get d ("decoration") = some (Value.dictV dd)) := by
  intro b color width offset cap join template decoration d h
  obtain ⟨base, heq, hty, hen, hlo, hta, hpre⟩ := layer_overlay_spec _ _ h
  simp only [convert_layer_family, convert_line_symbol_layer] at heq
  obtain ⟨k1, k2, k3, k4, k5, k6, k7⟩ :=
    cartographic_family_spec _ _ _ _ _ _ _ _ heq
  have hgt : Dict.get d ("template") = Dict.get base ("template") :=
    hpre ("template") (by simp) (by simp) (by simp) (by simp)
  have hgd : Dict.get d ("decoration") = Dict.get base ("decoration") :=
    hpre ("decoration") (by simp) (by simp) (by simp) (by simp)
  have hht : Dict.hasKey d ("template") = true := by
    rcases template with _ | t
    · have := k3 rfl
      rw [← hgt] at this
      exact Dict.hasKey_of_get d ("template") Value.null this
    · have := k4 t rfl
      rw [← hgt] at this
      exact Dict.hasKey_of_get d ("template") _ this
  refine ⟨hht, ?_, ?_, ?_, ?_, ?_, ?_⟩
  · rcases hk2 : Dict.get base ("decoration") with _ | v
    · rw [Dict.hasKey_iff_get] at k2
      obtain ⟨v, hv⟩ := k2
      rw [hk2] at hv
      cases hv
    · rw [← hgd] at hk2
      exact Dict.hasKey_of_get d ("decoration") v hk2
  · intro ht
    rw [hgt]
    exact k3 ht
  · intro t ht
    rw [hgt]
    exact k4 t ht
  · intro hdec
    rw [hgd]
    exact k5 hdec
  · intro ld dd h1 h2
    rw [hgd]
    exact k6 ld dd h1 h2
  · intro sd dd h1 h2
    rw [hgd]
    exact k7 sd dd h1 h2

/-- The C5 scenario dict: a cartographic line layer with template
pattern_interval 4 and pattern_parts [2, 2], and no decoration. -/
def c5dict : Dict :=
  [("color", Color.to_dict rgbRed),
   ("color_model", Value.strV ("rgb")),
   ("width", Value.intV 1),
   ("offset", Value.intV 0),
   ("cap", Value.strV ("butt")),
   ("join", Value.strV ("miter")),
   ("template", Value.dictV
     [("pattern_interval", Value.intV 4),
      ("pattern_parts", Value.listV [Value.intV 2, Value.intV 2])]),
   ("decoration", Value.null),
   ("type", Value.strV ("CartographicLineSymbolLayer")),
   ("enabled", Value.boolV true),
   ("locked", Value.boolV false)]

/-- Witness for C5 at the concrete scenario layer. -/
theorem c5_cartographic_template_decoration_witness :
    Dict.get c5dict ("template") =
      some (Value.dictV (convert_template (LineTemplate.mk 4 [2, 2]))) ∧
    Dict.get c5dict ("decoration") = some Value.null := by
  have h : convert_symbol_layer (SymbolLayer.lineLayer (LayerBase.mk true false [])
      (LineLayerVariant.cartographic (some rgbRed) 1 0 ("butt") ("miter")
        (some (LineTemplate.mk 4 [2, 2])) none)) = Except.ok c5dict := by
    simp [c5dict, rgbRed, convert_symbol_layer, convert_line_symbol_layer,
      convert_cartographic_line_symbol_layer, convert_opt_dec, convert_template,
      read_model, convert_color, Color.to_dict, Dict.set, layerTypeName,
      SymbolLayer.base]
  obtain ⟨k1, k2, k3, k4, k5, k6, k7⟩ :=
    c5_cartographic_template_decoration _ _ _ _ _ _ _ _ _ h
  exact ⟨k4 _ rfl, k5 rfl⟩

/-- The marker-line family converter emits the guarded color and color_model
fields for every color reference (shared helper). -/
theorem marker_line_color_fields (color : Option Color) (offset : Int)
    (cap join : String) (template : Option LineTemplate)
    (pattern_marker : Option SymbolOrLayer)
    (decoration : Option DecorationElem) (bd : Dict)
    (h : convert_marker_line_symbol_layer color offset cap join template
      pattern_marker decoration = Except.ok bd) :
    Dict.get bd ("color") = some (convert_color color) ∧
    Dict.get bd ("color_model") = some (read_model_guarded color) := by
  rw [convert_marker_line_symbol_layer.eq_def] at h
  simp only [eBind] at h
  split at h
  · simp at h
  rename_i pmv hpmv
  split at h
  · simp at h
  rename_i dv hdv
  simp only [Except.ok.injEq] at h
  subst h
  cases template <;> cases pmv <;> cases dv <;>
    simp [Dict.get_set_ne, Dict.get_set_self, Dict.get]

/-- The picture-fill family converter emits the guarded transparent color
and model fields for every transparent color reference (shared helper). -/
theorem picture_fill_transparent_fields (fg bg tr : Option Color) (sw : Bool)
    (ol : Option SymbolLayer) (os : Option Symbol) (pic : Option Picture)
    (angle sx sy ox oy px py : Int) (bd : Dict)
    (h : convert_picture_fill_symbol_layer fg bg tr sw ol os pic angle sx sy
      ox oy px py = Except.ok bd) :
    Dict.get bd ("color_transparent") = some (convert_color tr) ∧
    Dict.get bd ("color_transparent_model") = some (read_model_guarded tr) := by
  rw [convert_picture_fill_symbol_layer.eq_def] at h
  simp only [eBind] at h
  split at h
  · simp at h
  rename_i bgm hbgm
  split at h
  · simp at h
  rename_i olv holv
  split at h
  · simp at h
  rename_i osv hosv
  split at h
  · simp at h
  rename_i pv hpv
  simp only [Except.ok.injEq] at h
  subst h
  cases olv <;> cases osv <;>
    simp [Dict.get_set_ne, Dict.get_set_self, Dict.get]

/-- The picture-marker family converter emits the guarded transparent color
and model fields for every transparent color reference (shared helper). -/
theorem picture_marker_transparent_fields (fg bg tr : Option Color)
    (size angle xo yo : Int) (sw : Bool) (pic : Option Picture) (bd : Dict)
    (h : convert_picture_marker_symbol_layer fg bg tr size angle xo yo sw pic =
      Except.ok bd) :
    Dict.get bd ("color_transparent") = some (convert_color tr) ∧
    Dict.get bd ("color_transparent_model") = some (read_model_guarded tr) := by
  rw [convert_picture_marker_symbol_layer.eq_def] at h
  simp only [eBind] at h
  split at h
  · simp at h
  rename_i fgm hfgm
  split at h
  · simp at h
  rename_i bgm hbgm
  split at h
  · simp at h
  rename_i pv hpv
  simp only [Except.ok.injEq] at h
  subst h
  simp [Dict.get]

/-- C6: at the nullable color call sites an absent color yields explicit
null for both the color value and its model companion: a
MarkerLineSymbolLayer with no color converts with color null and
color_model null, and a PictureFillSymbolLayer or PictureMarkerSymbolLayer
with no transparent color converts with color_transparent null and
color_transparent_model null. -/
theorem c6_nullable_colors :
    (∀ (b : LayerBase) (offset : Int) (cap join : String)
      (template : Option LineTemplate) (pm : Option SymbolOrLayer)
      (dec : Option DecorationElem) (d : Dict),
      convert_symbol_layer (SymbolLayer.lineLayer b
        (LineLayerVariant.markerLine none offset cap join template pm dec)) =
        Except.ok d →
      Dict.get d ("color") = some Value.null ∧
      Dict.get d ("color_model") = some Value.null) ∧
    (∀ (b : LayerBase) (fg bg : Option Color) (sw : Bool)
      (ol : Option SymbolLayer) (os : Option Symbol) (pic : Option Picture)
      (angle sx sy ox oy px py : Int) (d : Dict),
      convert_symbol_layer (SymbolLayer.fillLayer b
        (FillLayerVariant.pictureFill fg bg none sw ol os pic angle sx sy ox
          oy px py)) = Except.ok d →
      Dict.get d ("color_transparent") = some Value.null ∧
      Dict.get d ("color_transparent_model") = some Value.null) ∧
    (∀ (b : LayerBase) (fg bg : Option Color) (size angle xo yo : Int)
      (sw : Bool) (pic : Option Picture) (d : Dict),
      convert_symbol_layer (SymbolLayer.markerLayer b
        (MarkerLayerVariant.pictureMarker fg bg none size angle xo yo sw
          pic)) = Except.ok d →
      Dict.get d ("color_transparent") = some Value.null ∧
      Dict.get d ("color_transparent_model") = some Value.null) := by
  refine ⟨?_, ?_, ?_⟩
  · intro b offset cap join template pm dec d h
    obtain ⟨base, heq, _, _, _, _, hpre⟩ := layer_overlay_spec _ _ h
    simp only [convert_layer_family, convert_line_symbol_layer] at heq
    obtain ⟨g1, g2⟩ := marker_line_color_fields _ _ _ _ _ _ _ _ heq
    constructor
    · rw [hpre ("color") (by simp) (by simp) (by simp) (by simp), g1]
      simp [convert_color]
    · rw [hpre ("color_model") (by simp) (by simp) (by simp) (by simp), g2]
      simp [read_model_guarded]
  · intro b fg bg sw ol os pic angle sx sy ox oy px py d h
    obtain ⟨base, heq, _, _, _, _, hpre⟩ := layer_overlay_spec _ _ h
    simp only [convert_layer_family, convert_fill_symbol_layer] at heq
    obtain ⟨g1, g2⟩ := picture_fill_transparent_fields _ _ _ _ _ _ _ _ _ _ _ _ _ _ _ heq
    constructor
    · rw [hpre ("color_transparent") (by simp) (by simp) (by simp) (by simp), g1]
      simp [convert_color]
    · rw [hpre ("color_transparent_model") (by simp) (by simp) (by simp) (by simp), g2]
      simp [read_model_guarded]
  · intro b fg bg size angle xo yo sw pic d h
    obtain ⟨base, heq, _, _, _, _, hpre⟩ := layer_overlay_spec _ _ h
    simp only [convert_layer_family, convert_marker_symbol_layer] at heq
    obtain ⟨g1, g2⟩ := picture_marker_transparent_fields _ _ _ _ _ _ _ _ _ _ heq
    constructor
    · rw [hpre ("color_transparent") (by simp) (by simp) (by simp) (by simp), g1]
      simp [convert_color]
    · rw [hpre ("color_transparent_model") (by simp) (by simp) (by simp) (by simp), g2]
      simp [read_model_guarded]

/-- Witness for C6 at a concrete colorless MarkerLineSymbolLayer. -/
theorem c6_nullable_colors_witness :
    Dict.get
      [("color", Value.null), ("color_model", Value.null),
       ("offset", Value.intV 0), ("cap", Value.strV ("butt")),
       ("join", Value.strV ("miter")), ("template", Value.null),
       ("pattern_marker", Value.null), ("decoration", Value.null),
       ("type", Value.strV ("MarkerLineSymbolLayer")),
       ("enabled", Value.boolV true), ("locked", Value.boolV false)]
      ("color") = some Value.null := by
  have H := c6_nullable_colors.1 (LayerBase.mk true false []) 0 ("butt")
    ("miter") none none none
    [("color", Value.null), ("color_model", Value.null),
     ("offset", Value.intV 0), ("cap", Value.strV ("butt")),
     ("join", Value.strV ("miter")), ("template", Value.null),
     ("pattern_marker", Value.null), ("decoration", Value.null),
     ("type", Value.strV ("MarkerLineSymbolLayer")),
     ("enabled", Value.boolV true), ("locked", Value.boolV false)]
    (by
      simp [convert_symbol_layer, convert_line_symbol_layer,
        convert_marker_line_symbol_layer, convert_opt_sol, convert_opt_dec,
        convert_color, read_model_guarded, Dict.set, layerTypeName,
        SymbolLayer.base])
  exact H.1

/-- C7: the Picture leaf converter maps null to null; otherwise it unwraps a
standard-picture holder to its concrete payload and emits the concrete
class name as type together with base64-encoded re-rasterized PNG content
for a BMP-like payload or base64-encoded opaque content for an EMF-like
payload; any other concrete picture kind raises UnsupportedVariant. -/
theorem c7_picture_leaf_converter :
    convert_picture none = Except.ok Value.null ∧
    (∀ (p : Picture) (content : List Nat),
      unwrapStd p = ConcretePicture.bmp content →
      convert_picture (some p) = Except.ok (Value.dictV
        [("type", Value.strV ("BmpPicture")),
         ("content", Value.strV (PictureUtils.to_base64_png content))])) ∧
    (∀ (p : Picture) (content : List Nat),
      unwrapStd p = ConcretePicture.emf content →
      convert_picture (some p) = Except.ok (Value.dictV
        [("type", Value.strV ("EmfPicture")),
         ("content", Value.strV (PictureUtils.to_base64 content))])) ∧
    (∀ (p : Picture) (d : Dict), convert_picture (some p) = Except.ok (Value.dictV d) →
      Dict.get d ("type") = some (Value.strV (pictureTypeName (unwrapStd p)))) ∧
    (∀ (p : Picture) (n : String), unwrapStd p = ConcretePicture.unknown n →
      convert_picture (some p) = Except.error (ConvErr.unsupportedVariant
        (n ++ (" picture conversion not implemented")))) := by
  refine ⟨rfl, ?_, ?_, ?_, ?_⟩
  · intro p content hp
    rw [convert_picture, hp]
  · intro p content hp
    rw [convert_picture, hp]
  · intro p d h
    rw [convert_picture] at h
    rcases hp : unwrapStd p with content | content | n <;> rw [hp] at h
    · simp only [Except.ok.injEq, Value.dictV.injEq] at h
      subst h
      simp [pictureTypeName, hp, Dict.get]
    · simp only [Except.ok.injEq, Value.dictV.injEq] at h
      subst h
      simp [pictureTypeName, hp, Dict.get]
    · simp at h
  · intro p n hp
    rw [convert_picture, hp]

/-- Witness for C7 at a concrete standard-picture-wrapped BMP payload. -/
theorem c7_picture_leaf_converter_witness :
    convert_picture (some (Picture.std (ConcretePicture.bmp [1, 2]))) =
      Except.ok (Value.dictV
        [("type", Value.strV ("BmpPicture")),
         ("content", Value.strV (PictureUtils.to_base64_png [1, 2]))]) :=
  c7_picture_leaf_converter.2.1 (Picture.std (ConcretePicture.bmp [1, 2]))
    [1, 2] rfl

/-- C8: every converted MarkerSymbol map carries halo (the boolean flag),
halo_size (the numeric size) and halo_symbol_type (the halo symbol class
name, with the NoneType sentinel when absent); the halo_symbol key is
present exactly when a FillSymbol halo symbol is attached, and then holds
its full recursive conversion. -/
theorem c8_marker_symbol_halo :
    ∀ (ls : List SymbolLayer) (halo : Bool) (hs : Int)
      (hsym : Option Symbol) (v : Value),
      convert_symbol (SymbolOrLayer.sym (Symbol.marker
        (MarkerSymbol.mk ls halo hs hsym))) = Except.ok v →
      ∃ d : Dict, v = Value.dictV d ∧
        Dict.get d ("halo") = some (Value.boolV halo) ∧
        Dict.get d ("halo_size") = some (Value.intV hs) ∧
        Dict.get d ("halo_symbol_type") = some (Value.strV (haloTypeName hsym)) ∧
        (Dict.hasKey d ("halo_symbol") = true ↔
          ∃ fs : FillSymbol, hsym = some (Symbol.fill fs)) ∧
        (∀ fs : FillSymbol, hsym = some (Symbol.fill fs) →
          ∃ hv : Value,
            convert_symbol (SymbolOrLayer.sym (Symbol.fill fs)) = Except.ok hv ∧
            Dict.get d ("halo_symbol") = some hv) := by
  intro ls halo hs hsym v h
  rw [convert_symbol] at h
  simp only [eBind] at h
  split at h
  · simp at h
  rename_i hv hhv
  split at h
  · simp at h
  rename_i ds hds
  simp only [Except.ok.injEq] at h
  subst h
  rcases hsym with _ | s
  · simp only [convert_halo, Except.ok.injEq] at hhv
    subst hhv
    refine ⟨_, rfl, ?_, ?_, ?_, ?_, ?_⟩
    · simp [markerSymbolDict, Dict.get]
    · simp [markerSymbolDict, Dict.get]
    · simp [markerSymbolDict, Dict.get]
    · simp [markerSymbolDict, Dict.hasKey]
    · intro fs hfs
      cases hfs
  · cases s with
    | fill fs =>
      rw [convert_halo] at hhv
      simp only [eBind] at hhv
      split at hhv
      · simp at hhv
      rename_i hvv hhvv
      simp only [Except.ok.injEq] at hhv
      subst hhv
      refine ⟨_, rfl, ?_, ?_, ?_, ?_, ?_⟩
      · simp [markerSymbolDict, Dict.get]
      · simp [markerSymbolDict, Dict.get]
      · simp [markerSymbolDict, Dict.get]
      · simp [markerSymbolDict, Dict.hasKey]
      · intro fs2 hfs
        cases hfs
        exact ⟨hvv, hhvv, by simp [markerSymbolDict, Dict.get]⟩
    | line lsym =>
      simp only [convert_halo, Except.ok.injEq] at hhv
      subst hhv
      refine ⟨_, rfl, ?_, ?_, ?_, ?_, ?_⟩
      · simp [markerSymbolDict, Dict.get]
      · simp [markerSymbolDict, Dict.get]
      · simp [markerSymbolDict, Dict.get]
      · simp [markerSymbolDict, Dict.hasKey]
      · intro fs hfs
        cases hfs
    | marker msym =>
      simp only [convert_halo, Except.ok.injEq] at hhv
      subst hhv
      refine ⟨_, rfl, ?_, ?_, ?_, ?_, ?_⟩
      · simp [markerSymbolDict, Dict.get]
      · simp [markerSymbolDict, Dict.get]
      · simp [markerSymbolDict, Dict.get]
      · simp [markerSymbolDict, Dict.hasKey]
      · intro fs hfs
        cases hfs

/-- Witness for C8 at a concrete marker symbol with no halo symbol. -/
theorem c8_marker_symbol_halo_witness :
    ∃ d : Dict,
      Value.dictV
        [("type", Value.strV ("MarkerSymbol")),
         ("levels", Value.listV [Value.dictV c3dict]),
         ("halo", Value.boolV false),
         ("halo_size", Value.intV 0),
         ("halo_symbol_type", Value.strV ("NoneType"))] = Value.dictV d ∧
      Dict.get d ("halo") = some (Value.boolV false) ∧
      Dict.get d ("halo_size") = some (Value.intV 0) ∧
      Dict.get d ("halo_symbol_type") = some (Value.strV (haloTypeName none)) ∧
      (Dict.hasKey d ("halo_symbol") = true ↔
        ∃ fs : FillSymbol, (none : Option Symbol) = some (Symbol.fill fs)) ∧
      (∀ fs : FillSymbol, (none : Option Symbol) = some (Symbol.fill fs) →
        ∃ hv : Value,
          convert_symbol (SymbolOrLayer.sym (Symbol.fill fs)) = Except.ok hv ∧
          Dict.get d ("halo_symbol") = some hv) :=
  c8_marker_symbol_halo [c3layer] false 0 none _ c3_wrapped_eval

/-- C9: optional sub-objects whose absence the spec leaves unstated are
emitted as explicit null-valued keys rather than omitted: a hash line layer
with no template, no line payload and no decoration still carries template,
line and decoration as null; a marker line layer with no pattern_marker
carries pattern_marker null; a character marker layer with no standard font
descriptor carries std_font null. -/
theorem c9_explicit_null_keys :
    (∀ (b : LayerBase) (color : Option Color) (width offset : Int)
      (cap join : String) (d : Dict),
      convert_symbol_layer (SymbolLayer.lineLayer b
        (LineLayerVariant.hash color width offset cap join none none none)) =
        Except.ok d →
      Dict.get d ("template") = some Value.null ∧
      Dict.get d ("line") = some Value.null ∧
      Dict.get d ("decoration") = some Value.null) ∧
    (∀ (b : LayerBase) (color : Option Color) (offset : Int)
      (cap join : String) (template : Option LineTemplate)
      (dec : Option DecorationElem) (d : Dict),
      convert_symbol_layer (SymbolLayer.lineLayer b
        (LineLayerVariant.markerLine color offset cap join template none
          dec)) = Except.ok d →
      Dict.get d ("pattern_marker") = some Value.null) ∧
    (∀ (b : LayerBase) (color : Option Color) (unicode : Int) (font : String)
      (size angle xo yo : Int) (d : Dict),
      convert_symbol_layer (SymbolLayer.markerLayer b
        (MarkerLayerVariant.character color unicode font none size angle xo
          yo)) = Except.ok d →
      Dict.get d ("std_font") = some Value.null) := by
  refine ⟨?_, ?_, ?_⟩
  · intro b color width offset cap join d h
    obtain ⟨base, heq, _, _, _, _, hpre⟩ := layer_overlay_spec _ _ h
    simp only [convert_layer_family, convert_line_symbol_layer] at heq
    rw [convert_hash_line_symbol_layer.eq_def] at heq
    simp only [eBind, convert_opt_sol, convert_opt_dec] at heq
    split at heq
    · simp at heq
    simp only [Except.ok.injEq] at heq
    subst heq
    refine ⟨?_, ?_, ?_⟩
    · rw [hpre ("template") (by simp) (by simp) (by simp) (by simp)]
      simp [Dict.get]
    · rw [hpre ("line") (by simp) (by simp) (by simp) (by simp)]
      simp [Dict.get]
    · rw [hpre ("decoration") (by simp) (by simp) (by simp) (by simp)]
      simp [Dict.get]
  · intro b color offset cap join template dec d h
    obtain ⟨base, heq, _, _, _, _, hpre⟩ := layer_overlay_spec _ _ h
    simp only [convert_layer_family, convert_line_symbol_layer] at heq
    rw [convert_marker_line_symbol_layer.eq_def] at heq
    simp only [eBind, convert_opt_sol] at heq
    split at heq
    · simp at heq
    rename_i dv hdv
    simp only [Except.ok.injEq] at heq
    subst heq
    rw [hpre ("pattern_marker") (by simp) (by simp) (by simp) (by simp)]
    cases template <;> cases dv <;>
      simp [Dict.get_set_ne, Dict.get_set_self, Dict.get]
  · intro b color unicode font size angle xo yo d h
    obtain ⟨base, heq, _, _, _, _, hpre⟩ := layer_overlay_spec _ _ h
    simp only [convert_layer_family, convert_marker_symbol_layer] at heq
    rw [convert_character_marker_symbol_layer.eq_def] at heq
    simp only [eBind] at heq
    split at heq
    · simp at heq
    simp only [Except.ok.injEq] at heq
    subst heq
    rw [hpre ("std_font") (by simp) (by simp) (by simp) (by simp)]
    simp [Dict.get]

/-- Witness for C9 at a concrete hash line layer with no optional
sub-objects. -/
theorem c9_explicit_null_keys_witness :
    Dict.get
      [("color", Color.to_dict rgbRed), ("color_model", Value.strV ("rgb")),
       ("width", Value.intV 1), ("offset", Value.intV 0),
       ("cap", Value.strV ("butt")), ("join", Value.strV ("miter")),
       ("template", Value.null), ("decoration", Value.null),
       ("line", Value.null), ("type", Value.strV ("HashLineSymbolLayer")),
       ("enabled", Value.boolV true), ("locked", Value.boolV false)]
      ("template") = some Value.null := by
  have H := c9_explicit_null_keys.1 (LayerBase.mk true false [])
    (some rgbRed) 1 0 ("butt") ("miter")
    [("color", Color.to_dict rgbRed), ("color_model", Value.strV ("rgb")),
     ("width", Value.intV 1), ("offset", Value.intV 0),
     ("cap", Value.strV ("butt")), ("join", Value.strV ("miter")),
     ("template", Value.null), ("decoration", Value.null),
     ("line", Value.null), ("type", Value.strV ("HashLineSymbolLayer")),
     ("enabled", Value.boolV true), ("locked", Value.boolV false)]
    (by
      simp [rgbRed, convert_symbol_layer, convert_line_symbol_layer,
        convert_hash_line_symbol_layer, convert_opt_sol, convert_opt_dec,
        read_model, convert_color, Color.to_dict, Dict.set, layerTypeName,
        SymbolLayer.base])
  exact H.1

/-- Whether a conversion produced a value, embedding raised-no-exception. -/
def isOk {α : Type} : Except ConvErr α → Bool
  | Except.ok _ => true
  | Except.error _ => false

/-- Counterexample to C10 as stated: the foreground color of a
PictureFillSymbolLayer is read guarded (dictionary.py line 274), so its
conversion succeeds with a null foreground color, contradicting the claim
that the conversions of the foreground colors of the two picture layer
variants succeed only when the color reference is non-null. -/
theorem c10_counterexample_picture_fill_foreground :
    isOk (convert_picture_fill_symbol_layer none (some rgbRed) none false
      none none none 0 0 0 0 0 0 0) = true := by
  simp [convert_picture_fill_symbol_layer, convert_opt_layer,
    convert_opt_symbol, convert_picture, read_model, isOk]

/-- C10 (amended): the conversions of SimpleFillSymbolLayer, ColorSymbol,
SimpleLineSymbolLayer, CartographicLineSymbolLayer, HashLineSymbolLayer,
SimpleMarkerSymbolLayer (color and outline color), CharacterMarkerSymbolLayer,
ArrowMarkerSymbolLayer, the background color of PictureFillSymbolLayer and
the foreground and background colors of PictureMarkerSymbolLayer read the
color model discriminator unguarded, so they succeed only when the
corresponding color reference is non-null; under that precondition, with the
optional recursive sub-objects absent, the null-dereference error branch is
unreachable and the conversion succeeds.  The foreground and transparent
colors of PictureFillSymbolLayer are read guarded. -/
theorem c10_amended_unguarded_model_reads :
    (∀ (c : Option Color) (ol : Option SymbolLayer) (os : Option Symbol),
      isOk (convert_simple_fill_symbol_layer c ol os) = true → c ≠ none) ∧
    (∀ cc : Color, isOk (convert_simple_fill_symbol_layer (some cc) none none) = true) ∧
    (∀ c : Option Color, isOk (convert_color_symbol c) = true ↔ c ≠ none) ∧
    (∀ (c : Option Color) (w : Int) (lt : String),
      isOk (convert_simple_line_symbol_layer c w lt) = true ↔ c ≠ none) ∧
    (∀ (c : Option Color) (w o : Int) (cap j : String)
      (t : Option LineTemplate) (dec : Option DecorationElem),
      isOk (convert_cartographic_line_symbol_layer c w o cap j t dec) = true →
        c ≠ none) ∧
    (∀ (cc : Color) (w o : Int) (cap j : String) (t : Option LineTemplate),
      isOk (convert_cartographic_line_symbol_layer (some cc) w o cap j t none) = true) ∧
    (∀ (c : Option Color) (w o : Int) (cap j : String)
      (t : Option LineTemplate) (line : Option SymbolOrLayer)
      (dec : Option DecorationElem),
      isOk (convert_hash_line_symbol_layer c w o cap j t line dec) = true →
        c ≠ none) ∧
    (∀ (cc : Color) (w o : Int) (cap j : String) (t : Option LineTemplate),
      isOk (convert_hash_line_symbol_layer (some cc) w o cap j t none none) = true) ∧
    (∀ (c : Option Color) (mt : String) (size xo yo : Int) (oe : Bool)
      (oc : Option Color) (ow : Int),
      isOk (convert_simple_marker_symbol_layer c mt size xo yo oe oc ow) = true ↔
        (c ≠ none ∧ oc ≠ none)) ∧
    (∀ (c : Option Color) (u : Int) (f : String) (sf : Option Font)
      (size a xo yo : Int),
      isOk (convert_character_marker_symbol_layer c u f sf size a xo yo) = true ↔
        c ≠ none) ∧
    (∀ (c : Option Color) (size w a xo yo : Int),
      isOk (convert_arrow_marker_symbol_layer c size w a xo yo) = true ↔
        c ≠ none) ∧
    (∀ (fg bg tr : Option Color) (sw : Bool) (ol : Option SymbolLayer)
      (os : Option Symbol) (pic : Option Picture)
      (angle sx sy ox oy px py : Int),
      isOk (convert_picture_fill_symbol_layer fg bg tr sw ol os pic angle sx
        sy ox oy px py) = true → bg ≠ none) ∧
    (∀ (fg tr : Option Color) (bgc : Color) (sw : Bool)
      (angle sx sy ox oy px py : Int),
      isOk (convert_picture_fill_symbol_layer fg (some bgc) tr sw none none
        none angle sx sy ox oy px py) = true) ∧
    (∀ (fg bg tr : Option Color) (size a xo yo : Int) (sw : Bool)
      (pic : Option Picture),
      isOk (convert_picture_marker_symbol_layer fg bg tr size a xo yo sw
        pic) = true → (fg ≠ none ∧ bg ≠ none)) ∧
    (∀ (fgc bgc : Color) (tr : Option Color) (size a xo yo : Int) (sw : Bool),
      isOk (convert_picture_marker_symbol_layer (some fgc) (some bgc) tr size
        a xo yo sw none) = true) := by
  refine ⟨?_, ?_, ?_, ?_, ?_, ?_, ?_, ?_, ?_, ?_, ?_, ?_, ?_, ?_, ?_⟩
  · intro c ol os h hc
    subst hc
    simp [convert_simple_fill_symbol_layer, read_model, isOk] at h
  · intro cc
    simp [convert_simple_fill_symbol_layer, convert_opt_layer,
      convert_opt_symbol, read_model, isOk]
  · intro c
    cases c <;> simp [convert_color_symbol, read_model, isOk]
  · intro c w lt
    cases c <;> simp [convert_simple_line_symbol_layer, read_model, isOk]
  · intro c w o cap j t dec h hc
    subst hc
    simp [convert_cartographic_line_symbol_layer, read_model, isOk] at h
  · intro cc w o cap j t
    simp [convert_cartographic_line_symbol_layer, convert_opt_dec,
      read_model, isOk]
  · intro c w o cap j t line dec h hc
    subst hc
    simp [convert_hash_line_symbol_layer, read_model, isOk] at h
  · intro cc w o cap j t
    simp [convert_hash_line_symbol_layer, convert_opt_sol, convert_opt_dec,
      read_model, isOk]
  · intro c mt size xo yo oe oc ow
    cases c <;> cases oc <;>
      simp [convert_simple_marker_symbol_layer, read_model, read_to_dict, isOk]
  · intro c u f sf size a xo yo
    cases c <;> simp [convert_character_marker_symbol_layer, read_model, isOk]
  · intro c size w a xo yo
    cases c <;> simp [convert_arrow_marker_symbol_layer, read_model, isOk]
  · intro fg bg tr sw ol os pic angle sx sy ox oy px py h hc
    subst hc
    simp [convert_picture_fill_symbol_layer, read_model, isOk] at h
  · intro fg tr bgc sw angle sx sy ox oy px py
    simp [convert_picture_fill_symbol_layer, convert_opt_layer,
      convert_opt_symbol, convert_picture, read_model, isOk]
  · intro fg bg tr size a xo yo sw pic h
    constructor
    · intro hc
      subst hc
      simp [convert_picture_marker_symbol_layer, read_model, isOk] at h
    · intro hc
      subst hc
      cases fg <;>
        simp [convert_picture_marker_symbol_layer, read_model, isOk] at h
  · intro fgc bgc tr size a xo yo sw
    simp [convert_picture_marker_symbol_layer, convert_picture, read_model,
      isOk]

/-- Witness for C10 (amended): the arrow marker conversion with a concrete
color succeeds, and that success implies the color is non-null. -/
theorem c10_amended_unguarded_model_reads_witness :
    (some rgbRed : Option Color) ≠ none := by
  have H := c10_amended_unguarded_model_reads
  exact (H.2.2.2.2.2.2.2.2.2.2.1 (some rgbRed) 1 1 0 0 0).mp
    (by simp [convert_arrow_marker_symbol_layer, read_model, rgbRed, isOk])

end Slyr
